import Mathlib

/-!
The input layer of zatackax (`src/input.c`).

A shallow embedding of the button codec (`isJoyButton`, `isJoyAxis`,
`joyIndex`, `joyButtonNumber`, `joyAxisDir`), of the process-wide input
state (`keyDown`, `joyButtonDown`, `numJoys`), of the operations that
read and clear it (`buttonDown`, `clearButton`, `enterButtonDown`,
`clearEnterButtons`, `menuButtonQuery`), of `openJoysticks` and of
`buttonName`.

Conventions of the embedding:

* a `button` is a C `unsigned int`; it is a `Nat` here, none of the
  codec's operations (`>>`, `&`) can overflow;
* the two flag tables are fixed-size C arrays; they are functions on
  `Fin`, so a state holds exactly the cells of the arrays;
* an array access with an index outside the array is undefined behaviour
  in C; every operation that indexes a table returns an `Option`, and
  `none` stands for such an access;
* a C function that mutates the globals returns the new state;
* a label is a `String`; `snprintf` into the 20-byte buffer keeps the first
  19 characters of the formatted text.
-/

namespace Zatackax

/-! ## Constants -/

/-- The C type `button` (an `unsigned int`). -/
abbrev button := Nat

/-- Size of `keyDown`: SDL's `SDL_NUM_SCANCODES`. -/
abbrev SDL_NUM_SCANCODES : Nat := 512

/-- Modelled from the spec: `MAX_PLAYERS` is declared in a header that is
not among the sources; the spec gives the maximum player/device count as 8
and `input.c` speaks of joysticks 0-7. -/
abbrev MAX_PLAYERS : Nat := 8

/-- Second dimension of `joyButtonDown`. -/
abbrev JOY_CODES : Nat := 128

/-- The constant `const Uint8 JOY_ENTER_BUTTON = 1`. -/
abbrev JOY_ENTER_BUTTON : Nat := 1

/-- Modelled from the spec: `enum joyDir` is declared in a header that is
not among the sources; the directions are numbered none = 0, up = 1,
right = 2, down = 3, left = 4. -/
abbrev JOY_DIR_NONE : Nat := 0

/-- Direction up of `enum joyDir`, see `JOY_DIR_NONE`. -/
abbrev JOY_DIR_UP : Nat := 1

/-- Direction right of `enum joyDir`, see `JOY_DIR_NONE`. -/
abbrev JOY_DIR_RIGHT : Nat := 2

/-- Direction down of `enum joyDir`, see `JOY_DIR_NONE`. -/
abbrev JOY_DIR_DOWN : Nat := 3

/-- Direction left of `enum joyDir`, see `JOY_DIR_NONE`. -/
abbrev JOY_DIR_LEFT : Nat := 4

/-- Modelled from the spec: `enum keySymbol` is declared in a header that is
not among the sources; it has the four menu directions, which index the
rows of `lkeys` in the order up, right, down, left. -/
inductive keySymbol
  | KEY_UP
  | KEY_RIGHT
  | KEY_DOWN
  | KEY_LEFT
  deriving DecidableEq, Repr

/-! SDL scancodes used by `input.c` (values of `SDL_scancode.h`). -/

/-- SDL scancode of the key B. -/
abbrev SDL_SCANCODE_B : Nat := 5
/-- SDL scancode of the key F. -/
abbrev SDL_SCANCODE_F : Nat := 9
/-- SDL scancode of the key H. -/
abbrev SDL_SCANCODE_H : Nat := 11
/-- SDL scancode of the key J. -/
abbrev SDL_SCANCODE_J : Nat := 13
/-- SDL scancode of the key K. -/
abbrev SDL_SCANCODE_K : Nat := 14
/-- SDL scancode of the key L. -/
abbrev SDL_SCANCODE_L : Nat := 15
/-- SDL scancode of the key N. -/
abbrev SDL_SCANCODE_N : Nat := 17
/-- SDL scancode of the key P. -/
abbrev SDL_SCANCODE_P : Nat := 19
/-- SDL scancode of the return key. -/
abbrev SDL_SCANCODE_RETURN : Nat := 40
/-- SDL scancode of the space key. -/
abbrev SDL_SCANCODE_SPACE : Nat := 44
/-- SDL scancode of the right arrow. -/
abbrev SDL_SCANCODE_RIGHT : Nat := 79
/-- SDL scancode of the left arrow. -/
abbrev SDL_SCANCODE_LEFT : Nat := 80
/-- SDL scancode of the down arrow. -/
abbrev SDL_SCANCODE_DOWN : Nat := 81
/-- SDL scancode of the up arrow. -/
abbrev SDL_SCANCODE_UP : Nat := 82

/-! ## The button codec -/

/-- Source `isJoyButton`: `((b >> 9) > 0) && ((b & 0xf0) == 0)`. -/
def isJoyButton (b : button) : Bool :=
  decide ((b >>> 9) > 0) && decide ((b &&& 0xf0) = 0)

/-- Source `isJoyAxis`: `((b >> 9) > 0) && ((b & 0xf0) > 0)`. -/
def isJoyAxis (b : button) : Bool :=
  decide ((b >>> 9) > 0) && decide ((b &&& 0xf0) > 0)

/-- Source `joyIndex`: `(b >> 9) - 1` for a joystick form, `-1` otherwise. In the
first branch `b >> 9` is positive, so the unsigned subtraction does not
wrap, and the result is below `2 ^ 23` for a 32-bit `b`, so the conversion
to `int` keeps it. -/
def joyIndex (b : button) : Int :=
  if isJoyButton b || isJoyAxis b then ((b >>> 9 : Nat) : Int) - 1 else -1

/-- Source `joyButtonNumber`: `b & 0x7f`, as an `int`. -/
def joyButtonNumber (b : button) : Int :=
  ((b &&& 0x7f : Nat) : Int)

/-- Source `joyAxisDir`: `(b & 0x70) >> 4`, a value of `enum joyDir`. -/
def joyAxisDir (b : button) : Nat :=
  (b &&& 0x70) >>> 4

/-- The identifier of button number `n` of device `d`. -/
def encodeButton (d n : Nat) : button :=
  ((d + 1) <<< 9) ||| n

/-- The identifier of axis direction `a` of device `d`. -/
def encodeAxis (d a : Nat) : button :=
  ((d + 1) <<< 9) ||| (a <<< 4)

/-! ## The input state -/

/-- The globals of `input.c`: `bool keyDown[SDL_NUM_SCANCODES]`,
`bool joyButtonDown[MAX_PLAYERS][128]` and `unsigned int numJoys`. -/
structure InputState where
  keyDown : Fin SDL_NUM_SCANCODES → Bool
  joyButtonDown : Fin MAX_PLAYERS → Fin JOY_CODES → Bool
  numJoys : Nat

/-- An index into an array of `n` cells; `none` when it is outside. -/
def index (n : Nat) : Int → Option (Fin n)
  | .ofNat k => if h : k < n then some ⟨k, h⟩ else none
  | .negSucc _ => none

/-- Read `keyDown[k]`. -/
def readKey (s : InputState) (k : Int) : Option Bool :=
  (index SDL_NUM_SCANCODES k).map s.keyDown

/-- The state after `keyDown[k] = v`. -/
def InputState.setKey (s : InputState) (k : Fin SDL_NUM_SCANCODES) (v : Bool) :
    InputState :=
  { s with keyDown := fun j => if j = k then v else s.keyDown j }

/-- The state after `joyButtonDown[i][c] = v`. -/
def InputState.setJoy (s : InputState) (i : Fin MAX_PLAYERS) (c : Fin JOY_CODES)
    (v : Bool) : InputState :=
  { s with joyButtonDown := fun j d =>
      if j = i ∧ d = c then v else s.joyButtonDown j d }

/-- Write `keyDown[k] = v`. -/
def writeKey (s : InputState) (k : Int) (v : Bool) : Option InputState :=
  (index SDL_NUM_SCANCODES k).map fun j => s.setKey j v

/-- Read `joyButtonDown[i][c]`. -/
def readJoy (s : InputState) (i c : Int) : Option Bool :=
  match index MAX_PLAYERS i, index JOY_CODES c with
  | some j, some d => some (s.joyButtonDown j d)
  | _, _ => none

/-- Write `joyButtonDown[i][c] = v`. -/
def writeJoy (s : InputState) (i c : Int) (v : Bool) : Option InputState :=
  match index MAX_PLAYERS i, index JOY_CODES c with
  | some j, some d => some (s.setJoy j d v)
  | _, _ => none

/-- Source `buttonDown`: the flag of `b`, out of `joyButtonDown` for a joystick
form and out of `keyDown` otherwise. -/
def buttonDown (s : InputState) (b : button) : Option Bool :=
  if isJoyButton b || isJoyAxis b then
    readJoy s (joyIndex b) (joyButtonNumber b)
  else
    readKey s (b : Int)

/-- Source `clearButton`: the same dispatch as `buttonDown`, storing `false`. -/
def clearButton (s : InputState) (b : button) : Option InputState :=
  if isJoyButton b || isJoyAxis b then
    writeJoy s (joyIndex b) (joyButtonNumber b) false
  else
    writeKey s (b : Int) false

/-- Sequencing inside a function that returns `bool`: when the statement
`x` has executed `return true` the function is over; otherwise the
statements `y` run from the state `x` left. -/
def thenTry (x : Option (Bool × InputState))
    (y : InputState → Option (Bool × InputState)) : Option (Bool × InputState) :=
  match x with
  | none => none
  | some (true, s) => some (true, s)
  | some (false, s) => y s

/-- The loop `for (i = 0; i < numJoys; i++)` of `enterButtonDown`, over the
device indices `is`: `if (joyButtonDown[i][JOY_ENTER_BUTTON]) return true;`. -/
def enterJoyScan (s : InputState) : List Nat → Option Bool
  | [] => some false
  | i :: is =>
    match readJoy s (i : Int) (JOY_ENTER_BUTTON : Int) with
    | none => none
    | some true => some true
    | some false => enterJoyScan s is

/-- Source `enterButtonDown`: space or return in `keyDown` (the second is
read only when the first is clear), then the enter button of every open
device. -/
def enterButtonDown (s : InputState) : Option Bool :=
  match readKey s (SDL_SCANCODE_SPACE : Int) with
  | none => none
  | some true => some true
  | some false =>
    match readKey s (SDL_SCANCODE_RETURN : Int) with
    | none => none
    | some true => some true
    | some false => enterJoyScan s (List.range s.numJoys)

/-- The loop of `clearEnterButtons` over the device indices `is`:
`joyButtonDown[i][JOY_ENTER_BUTTON] = false;`. -/
def clearEnterLoop : InputState → List Nat → Option InputState
  | s, [] => some s
  | s, i :: is =>
    match writeJoy s (i : Int) (JOY_ENTER_BUTTON : Int) false with
    | none => none
    | some s1 => clearEnterLoop s1 is

/-- Source `clearEnterButtons`: clears return, space, and the enter button
of the devices `0 .. numJoys - 1`. -/
def clearEnterButtons (s : InputState) : Option InputState :=
  match writeKey s (SDL_SCANCODE_RETURN : Int) false with
  | none => none
  | some s1 =>
    match writeKey s1 (SDL_SCANCODE_SPACE : Int) false with
    | none => none
    | some s2 => clearEnterLoop s2 (List.range s2.numJoys)

/-- The table `lkeys[4][3]` of `menuButtonQuery`, row `ks`. -/
def lkeys : keySymbol → List Nat
  | .KEY_UP => [SDL_SCANCODE_UP, SDL_SCANCODE_K, SDL_SCANCODE_P]
  | .KEY_RIGHT => [SDL_SCANCODE_RIGHT, SDL_SCANCODE_L, SDL_SCANCODE_F]
  | .KEY_DOWN => [SDL_SCANCODE_DOWN, SDL_SCANCODE_J, SDL_SCANCODE_N]
  | .KEY_LEFT => [SDL_SCANCODE_LEFT, SDL_SCANCODE_H, SDL_SCANCODE_B]

/-- The first loop of `menuButtonQuery`, over the keys of one row of
`lkeys`: `if (keyDown[k]) { keyDown[k] = false; return true; }`. -/
def menuKeyScan (s : InputState) : List Nat → Option (Bool × InputState)
  | [] => some (false, s)
  | k :: ks =>
    match readKey s (k : Int) with
    | none => none
    | some true => (writeKey s (k : Int) false).map fun s1 => (true, s1)
    | some false => menuKeyScan s ks

/-- One statement of the second loop of `menuButtonQuery`:
`if (ks == k && joyButtonDown[i][D << 4]) { joyButtonDown[i][D << 4] = false; return true; }`;
the table is read only when `ks == k`. -/
def menuAxisTest (ks k : keySymbol) (D : Nat) (s : InputState) (i : Nat) :
    Option (Bool × InputState) :=
  if ks = k then
    match readJoy s (i : Int) ((D <<< 4 : Nat) : Int) with
    | none => none
    | some true =>
      (writeJoy s (i : Int) ((D <<< 4 : Nat) : Int) false).map fun s1 => (true, s1)
    | some false => some (false, s)
  else some (false, s)

/-- The body of the second loop of `menuButtonQuery`: the four tests, for
up, right, down and left in this order. -/
def menuAxisBody (ks : keySymbol) (s : InputState) (i : Nat) :
    Option (Bool × InputState) :=
  thenTry (menuAxisTest ks .KEY_UP JOY_DIR_UP s i) fun s1 =>
  thenTry (menuAxisTest ks .KEY_RIGHT JOY_DIR_RIGHT s1 i) fun s2 =>
  thenTry (menuAxisTest ks .KEY_DOWN JOY_DIR_DOWN s2 i) fun s3 =>
  menuAxisTest ks .KEY_LEFT JOY_DIR_LEFT s3 i

/-- The second loop of `menuButtonQuery`, over the device indices `is`. -/
def menuAxisScan (ks : keySymbol) : InputState → List Nat → Option (Bool × InputState)
  | s, [] => some (false, s)
  | s, i :: is => thenTry (menuAxisBody ks s i) fun s1 => menuAxisScan ks s1 is

/-- Source `menuButtonQuery`: the result and the state it leaves. -/
def menuButtonQuery (ks : keySymbol) (s : InputState) : Option (Bool × InputState) :=
  thenTry (menuKeyScan s (lkeys ks)) fun s1 =>
  menuAxisScan ks s1 (List.range s1.numJoys)

/-! ## Vocabulary of the statements -/

/-- One cell of the two flag tables. -/
inductive Flag
  | key (k : Fin SDL_NUM_SCANCODES)
  | joy (i : Fin MAX_PLAYERS) (c : Fin JOY_CODES)
  deriving DecidableEq, Repr

/-- The value of a cell. -/
def InputState.flag (s : InputState) : Flag → Bool
  | .key k => s.keyDown k
  | .joy i c => s.joyButtonDown i c

/-- The state with one cell cleared and nothing else changed. -/
def InputState.clear (s : InputState) : Flag → InputState
  | .key k => s.setKey k false
  | .joy i c => s.setJoy i c false

/-- The `enum joyDir` direction of the same name as a menu direction. -/
def dirCode : keySymbol → Nat
  | .KEY_UP => JOY_DIR_UP
  | .KEY_RIGHT => JOY_DIR_RIGHT
  | .KEY_DOWN => JOY_DIR_DOWN
  | .KEY_LEFT => JOY_DIR_LEFT

/-- The cell of `keyDown` at `k`, when there is one. -/
def keyFlag (k : Nat) : Option Flag :=
  if h : k < SDL_NUM_SCANCODES then some (.key ⟨k, h⟩) else none

/-- The cell of `joyButtonDown` at row `i`, column `c`, when there is one. -/
def joyFlag (c i : Nat) : Option Flag :=
  if h : i < MAX_PLAYERS ∧ c < JOY_CODES then some (.joy ⟨i, h.1⟩ ⟨c, h.2⟩) else none

/-- The sources of a menu direction in their priority order: the arrow key,
the first letter alias, the second letter alias, then the axis slot
`direction << 4` of the devices `0, 1, ..., n - 1`. -/
def menuSources (ks : keySymbol) (n : Nat) : List Flag :=
  (lkeys ks).filterMap keyFlag ++ (List.range n).filterMap (joyFlag (dirCode ks <<< 4))

/-- The first held source of a menu direction, if any is held. -/
def firstHeld (ks : keySymbol) (s : InputState) : Option Flag :=
  (menuSources ks s.numJoys).find? s.flag

/-- The column of `joyButtonDown` that holds the axis flag of a menu
direction: `direction << 4`. -/
def axisSlot (ks : keySymbol) : Fin JOY_CODES :=
  ⟨dirCode ks <<< 4, by cases ks <;> decide⟩

/-- What a consuming query answers and leaves, given the source it found. -/
def InputState.consume (s : InputState) : Option Flag → Bool × InputState
  | none => (false, s)
  | some f => (true, s.clear f)

/-- The results of two calls of `menuButtonQuery` in a row, nothing else
touching the state in between. -/
def queryTwice (ks : keySymbol) (s : InputState) : Option (Bool × Bool) :=
  match menuButtonQuery ks s with
  | none => none
  | some (r1, s1) =>
    match menuButtonQuery ks s1 with
    | none => none
    | some (r2, _) => some (r1, r2)

/-- The column of `joyButtonDown` that holds the enter button of a device. -/
def enterSlot : Fin JOY_CODES :=
  ⟨JOY_ENTER_BUTTON, by decide⟩

/-- The cell of `keyDown` of the space key. -/
def spaceKey : Fin SDL_NUM_SCANCODES :=
  ⟨SDL_SCANCODE_SPACE, by decide⟩

/-- The cell of `keyDown` of the return key. -/
def returnKey : Fin SDL_NUM_SCANCODES :=
  ⟨SDL_SCANCODE_RETURN, by decide⟩

/-- The state in which no flag is set, with `n` open devices. -/
def idle (n : Nat) : InputState :=
  { keyDown := fun _ => false, joyButtonDown := fun _ _ => false, numJoys := n }

/-- The cell of `keyDown` of the key K. -/
def kKey : Fin SDL_NUM_SCANCODES :=
  ⟨SDL_SCANCODE_K, by decide⟩

/-- The cell of `keyDown` of the up arrow. -/
def upKey : Fin SDL_NUM_SCANCODES :=
  ⟨SDL_SCANCODE_UP, by decide⟩

/-- Scenario A of the spec: a keyboard-only session in which only the key K
is held. -/
def onlyK : InputState :=
  (idle 0).setKey kKey true

/-- A keyboard-only session in which the up arrow and the key K are held. -/
def upAndK : InputState :=
  ((idle 0).setKey upKey true).setKey kKey true

/-- Two open devices, the enter button of device 1 held. -/
def enterOnJoy1 : InputState :=
  (idle 2).setJoy ⟨1, by decide⟩ enterSlot true

/-! ## Opening the joysticks -/

/-- Conversion of an `int` to `unsigned int`, as in `numJoys = SDL_NumJoysticks()`. -/
def toUInt (i : Int) : Nat :=
  (i % 4294967296).toNat

/-- The loop of `openJoysticks` over the device indices `is`:
`joys[i] = SDL_JoystickOpen(i);`. The handles are SDL's; what is kept of the
store is its place in the array `joys[MAX_PLAYERS]`. -/
def openLoop : List Nat → Option Unit
  | [] => some ()
  | i :: is =>
    match index MAX_PLAYERS (i : Int) with
    | none => none
    | some _ => openLoop is

/-- Source `openJoysticks`, `reported` being what `SDL_NumJoysticks()` returns:
`numJoys` takes that value, then every device below `numJoys` is opened. -/
def openJoysticks (reported : Int) (s : InputState) : Option InputState :=
  match openLoop (List.range (toUInt reported)) with
  | none => none
  | some _ => some { s with numJoys := toUInt reported }

/-! ## Naming the buttons -/

/-- The constant `const int BUTTON_NAME_MAX_LEN = 20`. -/
abbrev BUTTON_NAME_MAX_LEN : Nat := 20

/-- SDL scancode `SDL_SCANCODE_UNKNOWN`. -/
abbrev SDL_SCANCODE_UNKNOWN : Nat := 0
/-- SDL mouse button `SDL_BUTTON_LEFT`. -/
abbrev SDL_BUTTON_LEFT : Nat := 1
/-- SDL mouse button `SDL_BUTTON_MIDDLE`. -/
abbrev SDL_BUTTON_MIDDLE : Nat := 2
/-- SDL mouse button `SDL_BUTTON_RIGHT`. -/
abbrev SDL_BUTTON_RIGHT : Nat := 3
/-- SDL scancode of the key A. -/
abbrev SDL_SCANCODE_A : Nat := 4
/-- SDL scancode of the key Z. -/
abbrev SDL_SCANCODE_Z : Nat := 29
/-- SDL scancode of the key 1. -/
abbrev SDL_SCANCODE_1 : Nat := 30
/-- SDL scancode of the key 9. -/
abbrev SDL_SCANCODE_9 : Nat := 38
/-- SDL scancode of the key 0, which comes after the key 9. -/
abbrev SDL_SCANCODE_0 : Nat := 39
/-- SDL scancode of backspace. -/
abbrev SDL_SCANCODE_BACKSPACE : Nat := 42
/-- SDL scancode of tab. -/
abbrev SDL_SCANCODE_TAB : Nat := 43
/-- SDL scancode of the minus key. -/
abbrev SDL_SCANCODE_MINUS : Nat := 45
/-- SDL scancode of the equals key. -/
abbrev SDL_SCANCODE_EQUALS : Nat := 46
/-- SDL scancode of the left bracket. -/
abbrev SDL_SCANCODE_LEFTBRACKET : Nat := 47
/-- SDL scancode of the right bracket. -/
abbrev SDL_SCANCODE_RIGHTBRACKET : Nat := 48
/-- SDL scancode of the backslash. -/
abbrev SDL_SCANCODE_BACKSLASH : Nat := 49
/-- SDL scancode of the semicolon. -/
abbrev SDL_SCANCODE_SEMICOLON : Nat := 51
/-- SDL scancode of the comma. -/
abbrev SDL_SCANCODE_COMMA : Nat := 54
/-- SDL scancode of the period. -/
abbrev SDL_SCANCODE_PERIOD : Nat := 55
/-- SDL scancode of the slash. -/
abbrev SDL_SCANCODE_SLASH : Nat := 56
/-- SDL scancode of F1; F2 to F12 follow it up to 69. -/
abbrev SDL_SCANCODE_F1 : Nat := 58
/-- SDL scancode of F12. -/
abbrev SDL_SCANCODE_F12 : Nat := 69
/-- SDL scancode of pause. -/
abbrev SDL_SCANCODE_PAUSE : Nat := 72
/-- SDL scancode of insert. -/
abbrev SDL_SCANCODE_INSERT : Nat := 73
/-- SDL scancode of home. -/
abbrev SDL_SCANCODE_HOME : Nat := 74
/-- SDL scancode of page up. -/
abbrev SDL_SCANCODE_PAGEUP : Nat := 75
/-- SDL scancode of delete. -/
abbrev SDL_SCANCODE_DELETE : Nat := 76
/-- SDL scancode of end. -/
abbrev SDL_SCANCODE_END : Nat := 77
/-- SDL scancode of page down. -/
abbrev SDL_SCANCODE_PAGEDOWN : Nat := 78
/-- SDL scancode of F13. -/
abbrev SDL_SCANCODE_F13 : Nat := 104
/-- SDL scancode of F14. -/
abbrev SDL_SCANCODE_F14 : Nat := 105
/-- SDL scancode of F15. -/
abbrev SDL_SCANCODE_F15 : Nat := 106
/-- SDL scancode of the menu key. -/
abbrev SDL_SCANCODE_MENU : Nat := 118
/-- SDL scancode of left control. -/
abbrev SDL_SCANCODE_LCTRL : Nat := 224
/-- SDL scancode of left shift. -/
abbrev SDL_SCANCODE_LSHIFT : Nat := 225
/-- SDL scancode of left alt. -/
abbrev SDL_SCANCODE_LALT : Nat := 226
/-- SDL scancode of right control. -/
abbrev SDL_SCANCODE_RCTRL : Nat := 228
/-- SDL scancode of right shift. -/
abbrev SDL_SCANCODE_RSHIFT : Nat := 229
/-- SDL scancode of right alt. -/
abbrev SDL_SCANCODE_RALT : Nat := 230
/-- SDL scancode of the mode key. -/
abbrev SDL_SCANCODE_MODE : Nat := 257

/-- The conversion `(short) i` of an `int`: its low 16 bits as a signed
value. -/
def toShort (i : Int) : Int :=
  (i + 32768) % 65536 - 32768

/-- What `%d` prints for an `int`. -/
def fmtInt (i : Int) : String :=
  toString i

/-- What `%c` prints for the argument `b`: the character whose code is
`(unsigned char) b`. -/
def fmtChar (b : Nat) : String :=
  String.singleton (Char.ofNat (b % 256))

/-- The call `snprintf(keyname, size, ...)` on the zeroed buffer `keyname`:
the buffer holds the first `size - 1` characters of the formatted text. -/
def snprintf (size : Nat) (text : String) : String :=
  ⟨text.data.take (size - 1)⟩

/-- The `switch (axisNumber)` of `buttonName`, `axisName` starting as `""`. -/
def axisName (axisNumber : Nat) : String :=
  if axisNumber = JOY_DIR_UP then "up"
  else if axisNumber = JOY_DIR_RIGHT then "right"
  else if axisNumber = JOY_DIR_DOWN then "down"
  else if axisNumber = JOY_DIR_LEFT then "left"
  else ""

/-- The cases of the `switch (b)` of `buttonName`, in the order of the
source, each with the text it prints. -/
def keyNames : List (Nat × String) :=
  [(SDL_SCANCODE_UNKNOWN, "none"),
   (SDL_SCANCODE_LEFT, "left"),
   (SDL_SCANCODE_RIGHT, "right"),
   (SDL_SCANCODE_UP, "up"),
   (SDL_SCANCODE_DOWN, "down"),
   (SDL_SCANCODE_PAUSE, "pause"),
   (SDL_SCANCODE_DELETE, "del"),
   (SDL_SCANCODE_INSERT, "ins"),
   (SDL_SCANCODE_HOME, "home"),
   (SDL_SCANCODE_END, "end"),
   (SDL_SCANCODE_MENU, "menu"),
   (SDL_SCANCODE_PAGEUP, "pg up"),
   (SDL_SCANCODE_PAGEDOWN, "pg dn"),
   (SDL_SCANCODE_RSHIFT, "r-shift"),
   (SDL_SCANCODE_LSHIFT, "l-shift"),
   (SDL_SCANCODE_RCTRL, "r-ctrl"),
   (SDL_SCANCODE_LCTRL, "l-ctrl"),
   (SDL_SCANCODE_RALT, "r-alt"),
   (SDL_SCANCODE_LALT, "l-alt"),
   (SDL_SCANCODE_MODE, "alt gr"),
   (SDL_SCANCODE_TAB, "tab"),
   (SDL_SCANCODE_PERIOD, "."),
   (SDL_SCANCODE_COMMA, ","),
   (SDL_SCANCODE_SEMICOLON, ";"),
   (SDL_SCANCODE_MINUS, "-"),
   (SDL_SCANCODE_EQUALS, "="),
   (SDL_SCANCODE_SLASH, "/"),
   (SDL_SCANCODE_BACKSLASH, "\\"),
   (SDL_SCANCODE_LEFTBRACKET, "["),
   (SDL_SCANCODE_RIGHTBRACKET, "]"),
   (SDL_SCANCODE_BACKSPACE, "b-space"),
   (SDL_SCANCODE_RETURN, "enter"),
   (SDL_SCANCODE_SPACE, "space"),
   (SDL_BUTTON_LEFT, "l-mouse"),
   (SDL_BUTTON_MIDDLE, "m-mouse"),
   (SDL_BUTTON_RIGHT, "r-mouse")]

/-- Source `buttonName`: the label left in the buffer `keyname`, which
`calloc` hands out zeroed (the allocation is taken to succeed). The
branches are tried in the order of the source: joystick button, joystick
axis, letter or digit range, function key range, then the `switch`, whose
`default` leaves the buffer empty. -/
def buttonName (s : InputState) (b : button) : String :=
  if isJoyButton b then
    if s.numJoys > 1 then
      snprintf BUTTON_NAME_MAX_LEN
        ("joy-" ++ fmtInt (toShort (joyButtonNumber b) + 1) ++ " (" ++
          fmtInt (toShort (joyIndex b) + 1) ++ ")")
    else
      snprintf BUTTON_NAME_MAX_LEN ("joy-" ++ fmtInt (toShort (joyButtonNumber b) + 1))
  else if isJoyAxis b then
    if s.numJoys > 1 then
      snprintf BUTTON_NAME_MAX_LEN
        ("joy-" ++ axisName (joyAxisDir b) ++ " (" ++
          fmtInt (toShort (joyIndex b) + 1) ++ ")")
    else
      snprintf BUTTON_NAME_MAX_LEN ("joy-" ++ axisName (joyAxisDir b))
  else if (SDL_SCANCODE_A ≤ b ∧ b ≤ SDL_SCANCODE_Z) ∨
      (SDL_SCANCODE_0 ≤ b ∧ b ≤ SDL_SCANCODE_9) then
    snprintf BUTTON_NAME_MAX_LEN (fmtChar b)
  else if SDL_SCANCODE_F1 ≤ b ∧ b ≤ SDL_SCANCODE_F15 then
    snprintf BUTTON_NAME_MAX_LEN ("F" ++ fmtInt ((b - SDL_SCANCODE_F1 + 1 : Nat) : Int))
  else
    match keyNames.lookup b with
    | some label => snprintf BUTTON_NAME_MAX_LEN label
    | none => ""

/-- The name of a direction of `enum joyDir`, as the spec spells it. -/
def dirName (a : Nat) : String :=
  if a = 1 then "up" else if a = 2 then "right" else if a = 3 then "down"
  else if a = 4 then "left" else ""

/-- The letter or digit printed on an alphanumeric key, by its SDL scancode:
`a` to `z` for 4 to 29, `1` to `9` for 30 to 38, `0` for 39. -/
def keyCharacter (b : Nat) : String :=
  if 4 ≤ b ∧ b ≤ 29 then String.singleton (Char.ofNat (b - 4 + 97))
  else if 30 ≤ b ∧ b ≤ 38 then String.singleton (Char.ofNat (b - 30 + 49))
  else if b = 39 then "0"
  else ""

/-! ## Calls in a row -/

/-- The answers of `n` calls of `menuButtonQuery` in a row, in order, and the
state they leave, nothing else touching the state in between. -/
def queryMany (ks : keySymbol) : Nat → InputState → Option (List Bool × InputState)
  | 0, s => some ([], s)
  | n + 1, s =>
    match menuButtonQuery ks s with
    | none => none
    | some (r, s1) =>
      match queryMany ks n s1 with
      | none => none
      | some (rs, s2) => some (r :: rs, s2)

/-- Two open devices with slot 0 of device 0 set: the slot of the button
identifier 512 and of the axis identifier 640. -/
def slot0Held : InputState :=
  (idle 2).setJoy ⟨0, by decide⟩ ⟨0, by decide⟩ true

/-! ## Lemmas on the codec -/

theorem shiftRight9_pos (b : Nat) : (b >>> 9 > 0) ↔ 512 ≤ b := by
  rw [Nat.shiftRight_eq_div_pow]
  omega

theorem and_f0_mod (b : Nat) : b &&& 0xf0 = (b % 256) &&& 0xf0 := by
  have h : b % 256 = b &&& 255 := (Nat.and_pow_two_sub_one_eq_mod b 8).symm
  rw [h, Nat.and_assoc]
  rfl

theorem and_7f_mod (b : Nat) : b &&& 0x7f = b % 128 :=
  Nat.and_pow_two_sub_one_eq_mod b 7

/-- An identifier is a joystick form exactly from 512 on. -/
theorem isJoy_or (b : Nat) : (isJoyButton b || isJoyAxis b) = decide (512 ≤ b) := by
  unfold isJoyButton isJoyAxis
  by_cases h : 512 ≤ b
  · have h1 : b >>> 9 > 0 := (shiftRight9_pos b).mpr h
    by_cases h2 : b &&& 0xf0 = 0
    · simp [h, h1, h2]
    · have h3 : b &&& 0xf0 > 0 := Nat.pos_of_ne_zero h2
      simp [h, h1, h2, h3]
  · have h1 : ¬ (b >>> 9 > 0) := fun h' => h ((shiftRight9_pos b).mp h')
    simp [h, h1]

/-- The two joystick predicates never hold together. -/
theorem not_button_and_axis (b : Nat) : ¬ (isJoyButton b = true ∧ isJoyAxis b = true) := by
  unfold isJoyButton isJoyAxis
  simp only [Bool.and_eq_true, decide_eq_true_eq]
  rintro ⟨⟨-, h1⟩, -, h2⟩
  rw [h1] at h2
  exact Nat.lt_irrefl 0 h2

set_option maxRecDepth 100000 in
/-- What the codec computes on every button encoding. -/
theorem encodeButton_facts : ∀ d < 8, ∀ n < 16,
    isJoyButton (encodeButton d n) = true ∧ isJoyAxis (encodeButton d n) = false ∧
    joyIndex (encodeButton d n) = (d : Int) ∧
    joyButtonNumber (encodeButton d n) = (n : Int) := by
  decide

set_option maxRecDepth 100000 in
/-- What the codec computes on every axis encoding. -/
theorem encodeAxis_facts : ∀ d < 8, ∀ a < 5, 1 ≤ a →
    isJoyAxis (encodeAxis d a) = true ∧ isJoyButton (encodeAxis d a) = false ∧
    joyIndex (encodeAxis d a) = (d : Int) ∧ joyAxisDir (encodeAxis d a) = a := by
  decide

/-! ## Lemmas on the table accesses -/

theorem index_natCast {n k : Nat} (h : k < n) : index n (k : Int) = some ⟨k, h⟩ := by
  show (if h : k < n then some (⟨k, h⟩ : Fin n) else none) = some ⟨k, h⟩
  rw [dif_pos h]

theorem index_natCast_none {n k : Nat} (h : n ≤ k) : index n (k : Int) = none := by
  show (if h : k < n then some (⟨k, h⟩ : Fin n) else none) = none
  rw [dif_neg (Nat.not_lt.mpr h)]

theorem readKey_natCast (s : InputState) {k : Nat} (h : k < SDL_NUM_SCANCODES) :
    readKey s (k : Int) = some (s.keyDown ⟨k, h⟩) := by
  simp [readKey, index_natCast h]

theorem writeKey_natCast (s : InputState) {k : Nat} (h : k < SDL_NUM_SCANCODES) (v : Bool) :
    writeKey s (k : Int) v = some (s.setKey ⟨k, h⟩ v) := by
  simp [writeKey, index_natCast h]

theorem readJoy_natCast (s : InputState) {i c : Nat} (hi : i < MAX_PLAYERS)
    (hc : c < JOY_CODES) :
    readJoy s (i : Int) (c : Int) = some (s.joyButtonDown ⟨i, hi⟩ ⟨c, hc⟩) := by
  simp [readJoy, index_natCast hi, index_natCast hc]

theorem writeJoy_natCast (s : InputState) {i c : Nat} (hi : i < MAX_PLAYERS)
    (hc : c < JOY_CODES) (v : Bool) :
    writeJoy s (i : Int) (c : Int) v = some (s.setJoy ⟨i, hi⟩ ⟨c, hc⟩ v) := by
  simp [writeJoy, index_natCast hi, index_natCast hc]

theorem buttonDown_plain (s : InputState) {k : Nat} (h : k < SDL_NUM_SCANCODES) :
    buttonDown s k = some (s.keyDown ⟨k, h⟩) := by
  have h1 : (isJoyButton k || isJoyAxis k) = false := by
    have h2 : k < 512 := h
    rw [isJoy_or]
    simp only [decide_eq_false_iff_not]
    omega
  unfold buttonDown
  rw [h1]
  exact readKey_natCast s h

theorem buttonDown_encodeButton (s : InputState) {d n : Nat} (hd : d < MAX_PLAYERS)
    (hn : n < 16) :
    buttonDown s (encodeButton d n) =
      some (s.joyButtonDown ⟨d, hd⟩ ⟨n, Nat.lt_trans hn (by decide)⟩) := by
  obtain ⟨h1, -, h3, h4⟩ := encodeButton_facts d hd n hn
  unfold buttonDown
  rw [h1, h3, h4]
  exact readJoy_natCast s hd _

/-! ## Lemmas on the state -/

theorem InputState.ext_fields {s t : InputState} (h1 : s.keyDown = t.keyDown)
    (h2 : s.joyButtonDown = t.joyButtonDown) (h3 : s.numJoys = t.numJoys) : s = t := by
  cases s
  cases t
  simp only [InputState.mk.injEq]
  exact ⟨h1, h2, h3⟩

theorem flag_clear_self (s : InputState) (f : Flag) : (s.clear f).flag f = false := by
  cases f <;> simp [InputState.clear, InputState.flag, InputState.setKey, InputState.setJoy]

theorem flag_clear_other (s : InputState) {f g : Flag} (h : g ≠ f) :
    (s.clear f).flag g = s.flag g := by
  cases f with
  | key k =>
    cases g with
    | key j =>
      have hjk : j ≠ k := fun e => h (by rw [e])
      simp [InputState.clear, InputState.flag, InputState.setKey, hjk]
    | joy i c => rfl
  | joy i c =>
    cases g with
    | key j => rfl
    | joy j d =>
      have hne : ¬ (j = i ∧ d = c) := fun e => h (by rw [e.1, e.2])
      show (if j = i ∧ d = c then false else s.joyButtonDown j d) = s.joyButtonDown j d
      rw [if_neg hne]

theorem numJoys_clear (s : InputState) (f : Flag) : (s.clear f).numJoys = s.numJoys := by
  cases f <;> rfl

theorem thenTry_none (y : InputState → Option (Bool × InputState)) : thenTry none y = none :=
  rfl

theorem thenTry_true (s : InputState) (y : InputState → Option (Bool × InputState)) :
    thenTry (some (true, s)) y = some (true, s) :=
  rfl

theorem thenTry_false (s : InputState) (y : InputState → Option (Bool × InputState)) :
    thenTry (some (false, s)) y = y s :=
  rfl

/-- The cell of `joyButtonDown` that a joystick form with a device index
below `MAX_PLAYERS` addresses. -/
theorem joy_cell (b : Nat) (hj : (isJoyButton b || isJoyAxis b) = true)
    (h8 : joyIndex b < (MAX_PLAYERS : Int)) :
    ∃ (i : Fin MAX_PLAYERS) (c : Fin JOY_CODES),
      joyIndex b = (i.val : Int) ∧ joyButtonNumber b = (c.val : Int) := by
  have hpos : 0 < b >>> 9 := by
    have h512 : 512 ≤ b := by
      rw [isJoy_or] at hj
      exact of_decide_eq_true hj
    exact (shiftRight9_pos b).mpr h512
  have hidx : joyIndex b = ((b >>> 9 : Nat) : Int) - 1 := by
    unfold joyIndex
    rw [if_pos hj]
  have hlt : b >>> 9 - 1 < MAX_PLAYERS := by
    rw [hidx] at h8
    have h8' : ((b >>> 9 : Nat) : Int) - 1 < 8 := h8
    show b >>> 9 - 1 < 8
    omega
  have hc : b &&& 0x7f < JOY_CODES := by
    rw [and_7f_mod]
    exact Nat.mod_lt b (by decide)
  refine ⟨⟨b >>> 9 - 1, hlt⟩, ⟨b &&& 0x7f, hc⟩, ?_, rfl⟩
  rw [hidx]
  show ((b >>> 9 : Nat) : Int) - 1 = ((b >>> 9 - 1 : Nat) : Int)
  omega

/-! ## Lemmas on `menuButtonQuery` -/

/-- The first loop of `menuButtonQuery` consumes the first held key. -/
theorem menuKeyScan_eq (s : InputState) (l : List Nat)
    (hl : ∀ k ∈ l, k < SDL_NUM_SCANCODES) :
    menuKeyScan s l = some (s.consume ((l.filterMap keyFlag).find? s.flag)) := by
  induction l with
  | nil => rfl
  | cons k l ih =>
    have hk : k < SDL_NUM_SCANCODES := hl k (List.mem_cons_self k l)
    have hl1 : ∀ j ∈ l, j < SDL_NUM_SCANCODES := fun j hj => hl j (List.mem_cons_of_mem k hj)
    have hf : keyFlag k = some (.key ⟨k, hk⟩) := by
      unfold keyFlag
      rw [dif_pos hk]
    rw [List.filterMap_cons_some hf, List.find?_cons, menuKeyScan, readKey_natCast s hk]
    cases hv : s.keyDown ⟨k, hk⟩
    · simp only [InputState.flag, hv]
      exact ih hl1
    · simp only [InputState.flag, hv, writeKey_natCast s hk]
      rfl

theorem menuAxisTest_eq (ks k : keySymbol) (D : Nat) (s : InputState) {i : Nat}
    (hi : i < MAX_PLAYERS) (hD : D <<< 4 < JOY_CODES) :
    menuAxisTest ks k D s i =
      if ks = k ∧ s.joyButtonDown ⟨i, hi⟩ ⟨D <<< 4, hD⟩ = true then
        some (true, s.setJoy ⟨i, hi⟩ ⟨D <<< 4, hD⟩ false)
      else some (false, s) := by
  unfold menuAxisTest
  by_cases h : ks = k
  · rw [if_pos h, readJoy_natCast s hi hD, writeJoy_natCast s hi hD]
    cases hv : s.joyButtonDown ⟨i, hi⟩ ⟨D <<< 4, hD⟩ <;> simp [h]
  · rw [if_neg h, if_neg (fun e => h e.1)]

theorem menuAxisTest_outside (ks : keySymbol) (D : Nat) (s : InputState) {i : Nat}
    (hi : MAX_PLAYERS ≤ i) : menuAxisTest ks ks D s i = none := by
  unfold menuAxisTest
  rw [if_pos rfl]
  simp [readJoy, index_natCast_none hi]

theorem menuAxisTest_other {ks k : keySymbol} (h : ks ≠ k) (D : Nat) (s : InputState)
    (i : Nat) : menuAxisTest ks k D s i = some (false, s) := by
  unfold menuAxisTest
  rw [if_neg h]

/-- The body of the second loop consumes the axis flag of device `i` when it
is set. -/
theorem menuAxisBody_eq (ks : keySymbol) (s : InputState) {i : Nat} (hi : i < MAX_PLAYERS) :
    menuAxisBody ks s i =
      some (s.consume (if s.joyButtonDown ⟨i, hi⟩ (axisSlot ks) = true then
        some (.joy ⟨i, hi⟩ (axisSlot ks)) else none)) := by
  cases ks
  · rw [menuAxisBody, menuAxisTest_eq _ _ _ s hi (by decide)]
    by_cases hv : s.joyButtonDown ⟨i, hi⟩ (axisSlot .KEY_UP) = true
    · rw [if_pos hv, if_pos ⟨rfl, hv⟩]
      rfl
    · rw [if_neg hv, if_neg (fun e => hv e.2), thenTry_false,
        menuAxisTest_other (by decide), thenTry_false,
        menuAxisTest_other (by decide), thenTry_false,
        menuAxisTest_other (by decide)]
      rfl
  · rw [menuAxisBody, menuAxisTest_other (by decide), thenTry_false,
      menuAxisTest_eq _ _ _ s hi (by decide)]
    by_cases hv : s.joyButtonDown ⟨i, hi⟩ (axisSlot .KEY_RIGHT) = true
    · rw [if_pos hv, if_pos ⟨rfl, hv⟩]
      rfl
    · rw [if_neg hv, if_neg (fun e => hv e.2), thenTry_false,
        menuAxisTest_other (by decide), thenTry_false,
        menuAxisTest_other (by decide)]
      rfl
  · rw [menuAxisBody, menuAxisTest_other (by decide), thenTry_false,
      menuAxisTest_other (by decide), thenTry_false,
      menuAxisTest_eq _ _ _ s hi (by decide)]
    by_cases hv : s.joyButtonDown ⟨i, hi⟩ (axisSlot .KEY_DOWN) = true
    · rw [if_pos hv, if_pos ⟨rfl, hv⟩]
      rfl
    · rw [if_neg hv, if_neg (fun e => hv e.2), thenTry_false,
        menuAxisTest_other (by decide)]
      rfl
  · rw [menuAxisBody, menuAxisTest_other (by decide), thenTry_false,
      menuAxisTest_other (by decide), thenTry_false,
      menuAxisTest_other (by decide), thenTry_false,
      menuAxisTest_eq _ _ _ s hi (by decide)]
    by_cases hv : s.joyButtonDown ⟨i, hi⟩ (axisSlot .KEY_LEFT) = true
    · rw [if_pos hv, if_pos ⟨rfl, hv⟩]
      rfl
    · rw [if_neg hv, if_neg (fun e => hv e.2)]
      rfl

/-- The body of the second loop indexes outside `joyButtonDown` from row 8 on. -/
theorem menuAxisBody_outside (ks : keySymbol) (s : InputState) {i : Nat}
    (hi : MAX_PLAYERS ≤ i) : menuAxisBody ks s i = none := by
  cases ks
  · rw [menuAxisBody, menuAxisTest_outside _ _ s hi]
    rfl
  · rw [menuAxisBody, menuAxisTest_other (by decide), thenTry_false,
      menuAxisTest_outside _ _ s hi]
    rfl
  · rw [menuAxisBody, menuAxisTest_other (by decide), thenTry_false,
      menuAxisTest_other (by decide), thenTry_false, menuAxisTest_outside _ _ s hi]
    rfl
  · rw [menuAxisBody, menuAxisTest_other (by decide), thenTry_false,
      menuAxisTest_other (by decide), thenTry_false,
      menuAxisTest_other (by decide), thenTry_false, menuAxisTest_outside _ _ s hi]

theorem joyFlag_axis (ks : keySymbol) {i : Nat} (hi : i < MAX_PLAYERS) :
    joyFlag (dirCode ks <<< 4) i = some (.joy ⟨i, hi⟩ (axisSlot ks)) := by
  unfold joyFlag
  rw [dif_pos ⟨hi, (axisSlot ks).isLt⟩]
  rfl

theorem joyFlag_outside (c : Nat) {i : Nat} (hi : MAX_PLAYERS ≤ i) : joyFlag c i = none := by
  unfold joyFlag
  rw [dif_neg (fun h => Nat.not_lt.mpr hi h.1)]

/-- The second loop of `menuButtonQuery`, over devices inside the table,
consumes the first held axis flag. -/
theorem menuAxisScan_eq (ks : keySymbol) (s : InputState) (l : List Nat)
    (hl : ∀ i ∈ l, i < MAX_PLAYERS) :
    menuAxisScan ks s l =
      some (s.consume ((l.filterMap (joyFlag (dirCode ks <<< 4))).find? s.flag)) := by
  induction l with
  | nil => rfl
  | cons i l ih =>
    have hi : i < MAX_PLAYERS := hl i (List.mem_cons_self i l)
    have hl1 : ∀ j ∈ l, j < MAX_PLAYERS := fun j hj => hl j (List.mem_cons_of_mem i hj)
    rw [List.filterMap_cons_some (joyFlag_axis ks hi), List.find?_cons, menuAxisScan,
      menuAxisBody_eq ks s hi]
    cases hv : s.joyButtonDown ⟨i, hi⟩ (axisSlot ks)
    · simp only [InputState.flag, hv]
      exact ih hl1
    · simp only [InputState.flag, hv]
      rfl

/-- The second loop of `menuButtonQuery` that reaches a device outside the
table: it consumes the first held axis flag before that device, and indexes
outside `joyButtonDown` when there is none. -/
theorem menuAxisScan_outside (ks : keySymbol) (s : InputState) (l1 : List Nat) (j : Nat)
    (l2 : List Nat) (hl : ∀ i ∈ l1, i < MAX_PLAYERS) (hj : MAX_PLAYERS ≤ j) :
    menuAxisScan ks s (l1 ++ j :: l2) =
      ((l1.filterMap (joyFlag (dirCode ks <<< 4))).find? s.flag).map
        fun f => (true, s.clear f) := by
  induction l1 with
  | nil =>
    rw [List.nil_append, menuAxisScan, menuAxisBody_outside ks s hj]
    rfl
  | cons i l ih =>
    have hi : i < MAX_PLAYERS := hl i (List.mem_cons_self i l)
    have hl1 : ∀ k ∈ l, k < MAX_PLAYERS := fun k hk => hl k (List.mem_cons_of_mem i hk)
    rw [List.filterMap_cons_some (joyFlag_axis ks hi), List.find?_cons, List.cons_append,
      menuAxisScan, menuAxisBody_eq ks s hi]
    cases hv : s.joyButtonDown ⟨i, hi⟩ (axisSlot ks)
    · simp only [InputState.flag, hv]
      exact ih hl1
    · simp only [InputState.flag, hv]
      rfl

theorem range_split (m : Nat) :
    List.range (MAX_PLAYERS + (m + 1)) =
      List.range MAX_PLAYERS ++ MAX_PLAYERS :: List.range' (MAX_PLAYERS + 1) m := by
  have h := List.range'_append 0 MAX_PLAYERS (m + 1) 1
  rw [Nat.add_comm (m + 1) MAX_PLAYERS] at h
  rw [List.range_eq_range', List.range_eq_range', ← List.range'_succ, ← h, Nat.zero_add,
    Nat.one_mul]

theorem filterMap_joyFlag_range (c m : Nat) :
    (List.range (MAX_PLAYERS + (m + 1))).filterMap (joyFlag c) =
      (List.range MAX_PLAYERS).filterMap (joyFlag c) := by
  have h : (MAX_PLAYERS :: List.range' (MAX_PLAYERS + 1) m).filterMap (joyFlag c) = [] := by
    rw [List.filterMap_eq_nil_iff]
    intro a ha
    rw [← List.range'_succ, List.mem_range'_1] at ha
    exact joyFlag_outside c ha.1
  rw [range_split, List.filterMap_append, h, List.append_nil]

/-- The second loop of `menuButtonQuery` over the devices `0 .. n - 1`. -/
theorem menuAxisScan_range (ks : keySymbol) (s : InputState) (n : Nat) :
    menuAxisScan ks s (List.range n) =
      match ((List.range n).filterMap (joyFlag (dirCode ks <<< 4))).find? s.flag with
      | some f => some (true, s.clear f)
      | none => if n ≤ MAX_PLAYERS then some (false, s) else none := by
  by_cases hn : n ≤ MAX_PLAYERS
  · rw [menuAxisScan_eq ks s _ (fun i hi => Nat.lt_of_lt_of_le (List.mem_range.mp hi) hn),
      if_pos hn]
    cases ((List.range n).filterMap (joyFlag (dirCode ks <<< 4))).find? s.flag <;> rfl
  · obtain ⟨m, rfl⟩ : ∃ m, n = MAX_PLAYERS + (m + 1) :=
      ⟨n - MAX_PLAYERS - 1, by omega⟩
    rw [if_neg hn, filterMap_joyFlag_range, range_split,
      menuAxisScan_outside ks s _ _ _ (fun i hi => List.mem_range.mp hi) (Nat.le_refl _)]
    cases ((List.range MAX_PLAYERS).filterMap (joyFlag (dirCode ks <<< 4))).find? s.flag <;> rfl

theorem lkeys_lt (ks : keySymbol) : ∀ k ∈ lkeys ks, k < SDL_NUM_SCANCODES := by
  cases ks <;> decide

/-- What `menuButtonQuery` answers and leaves: it consumes the first held
source; with none held it answers false and leaves the state, unless more
than `MAX_PLAYERS` devices are open, in which case it indexes outside
`joyButtonDown`. -/
theorem menuButtonQuery_eq (ks : keySymbol) (s : InputState) :
    menuButtonQuery ks s =
      match firstHeld ks s with
      | some f => some (true, s.clear f)
      | none => if s.numJoys ≤ MAX_PLAYERS then some (false, s) else none := by
  unfold menuButtonQuery firstHeld menuSources
  rw [menuKeyScan_eq s (lkeys ks) (lkeys_lt ks), List.find?_append]
  cases ((lkeys ks).filterMap keyFlag).find? s.flag with
  | none =>
    rw [Option.none_or]
    exact menuAxisScan_range ks s s.numJoys
  | some f => rfl

/-- The sources of a menu direction: the three keys of its row of `lkeys`
and its axis slot on the devices below `n` that have a row in the table. -/
theorem mem_menuSources (ks : keySymbol) (n : Nat) (f : Flag) :
    f ∈ menuSources ks n ↔
      (∃ k : Fin SDL_NUM_SCANCODES, k.val ∈ lkeys ks ∧ f = .key k) ∨
      (∃ i : Fin MAX_PLAYERS, i.val < n ∧ f = .joy i (axisSlot ks)) := by
  unfold menuSources
  rw [List.mem_append, List.mem_filterMap, List.mem_filterMap]
  constructor
  · rintro (⟨k, hk, hf⟩ | ⟨i, hi, hf⟩)
    · left
      have hlt := lkeys_lt ks k hk
      unfold keyFlag at hf
      rw [dif_pos hlt] at hf
      exact ⟨⟨k, hlt⟩, hk, (Option.some.inj hf).symm⟩
    · right
      by_cases h8 : i < MAX_PLAYERS
      · rw [joyFlag_axis ks h8] at hf
        exact ⟨⟨i, h8⟩, List.mem_range.mp hi, (Option.some.inj hf).symm⟩
      · rw [joyFlag_outside _ (Nat.le_of_not_lt h8)] at hf
        exact absurd hf (by simp)
  · rintro (⟨k, hk, rfl⟩ | ⟨i, hi, rfl⟩)
    · left
      refine ⟨k.val, hk, ?_⟩
      unfold keyFlag
      rw [dif_pos k.isLt]
    · right
      exact ⟨i.val, List.mem_range.mpr hi, joyFlag_axis ks i.isLt⟩

/-- Some source of a menu direction is held iff one of the three keys of its
row of `lkeys` is set or its axis slot is set on an open device. -/
theorem held_iff (ks : keySymbol) (s : InputState) (n : Nat) :
    (∃ f, f ∈ menuSources ks n ∧ s.flag f = true) ↔
      ((∃ k : Fin SDL_NUM_SCANCODES, k.val ∈ lkeys ks ∧ s.keyDown k = true) ∨
        (∃ i : Fin MAX_PLAYERS, i.val < n ∧ s.joyButtonDown i (axisSlot ks) = true)) := by
  constructor
  · rintro ⟨f, hf, hv⟩
    rcases (mem_menuSources ks n f).mp hf with ⟨k, hk, rfl⟩ | ⟨i, hi, rfl⟩
    · exact Or.inl ⟨k, hk, hv⟩
    · exact Or.inr ⟨i, hi, hv⟩
  · rintro (⟨k, hk, hv⟩ | ⟨i, hi, hv⟩)
    · exact ⟨.key k, (mem_menuSources ks n _).mpr (Or.inl ⟨k, hk, rfl⟩), hv⟩
    · exact ⟨.joy i (axisSlot ks), (mem_menuSources ks n _).mpr (Or.inr ⟨i, hi, rfl⟩), hv⟩

theorem firstHeld_none_iff (ks : keySymbol) (s : InputState) :
    firstHeld ks s = none ↔ ∀ f ∈ menuSources ks s.numJoys, s.flag f = false := by
  unfold firstHeld
  rw [List.find?_eq_none]
  simp only [Bool.not_eq_true]

theorem firstHeld_some {ks : keySymbol} {s : InputState} {f : Flag}
    (h : firstHeld ks s = some f) :
    f ∈ menuSources ks s.numJoys ∧ s.flag f = true ∧
      ∃ pre post, menuSources ks s.numJoys = pre ++ f :: post ∧
        ∀ g ∈ pre, s.flag g = false := by
  unfold firstHeld at h
  refine ⟨List.mem_of_find?_eq_some h, List.find?_some h, ?_⟩
  obtain ⟨-, pre, post, hsplit, hpre⟩ := List.find?_eq_some.mp h
  refine ⟨pre, post, hsplit, fun g hg => ?_⟩
  have := hpre g hg
  simpa using this

/-- With at most `MAX_PLAYERS` devices open, two calls of `menuButtonQuery`
in a row both return; the first answers whether a source is held, the second
whether a source is still held once the first held one is cleared. -/
theorem queryTwice_eq (ks : keySymbol) (s : InputState) (h : s.numJoys ≤ MAX_PLAYERS) :
    queryTwice ks s =
      some (match firstHeld ks s with
        | none => (false, false)
        | some f => (true, (firstHeld ks (s.clear f)).isSome)) := by
  unfold queryTwice
  rw [menuButtonQuery_eq ks s]
  cases hfh : firstHeld ks s with
  | none =>
    simp only [if_pos h]
    rw [menuButtonQuery_eq ks s, hfh]
    simp only [if_pos h]
  | some f =>
    simp only []
    rw [menuButtonQuery_eq ks (s.clear f)]
    cases hfh2 : firstHeld ks (s.clear f) with
    | none =>
      have h2 : (s.clear f).numJoys ≤ MAX_PLAYERS := by
        rw [numJoys_clear]
        exact h
      simp only [if_pos h2]
      rfl
    | some g => rfl

/-! ## Lemmas on the enter buttons -/

/-- The loop of `enterButtonDown` over devices inside the table answers
whether one of them has its enter button set. -/
theorem enterJoyScan_eq (s : InputState) (l : List Nat) (hl : ∀ i ∈ l, i < MAX_PLAYERS) :
    ∃ r, enterJoyScan s l = some r ∧
      (r = true ↔ ∃ i : Fin MAX_PLAYERS, i.val ∈ l ∧ s.joyButtonDown i enterSlot = true) := by
  induction l with
  | nil => exact ⟨false, rfl, by simp⟩
  | cons i l ih =>
    have hi : i < MAX_PLAYERS := hl i (List.mem_cons_self i l)
    have hl1 : ∀ j ∈ l, j < MAX_PLAYERS := fun j hj => hl j (List.mem_cons_of_mem i hj)
    have hread : readJoy s (i : Int) (JOY_ENTER_BUTTON : Int) =
        some (s.joyButtonDown ⟨i, hi⟩ enterSlot) := readJoy_natCast s hi (by decide)
    rw [enterJoyScan, hread]
    cases hv : s.joyButtonDown ⟨i, hi⟩ enterSlot
    · obtain ⟨r, hr, hiff⟩ := ih hl1
      refine ⟨r, hr, hiff.trans ⟨?_, ?_⟩⟩
      · rintro ⟨j, hj, hjv⟩
        exact ⟨j, List.mem_cons_of_mem i hj, hjv⟩
      · rintro ⟨j, hj, hjv⟩
        rcases List.mem_cons.mp hj with hji | hjl
        · have hje : j = ⟨i, hi⟩ := Fin.ext hji
          rw [hje, hv] at hjv
          exact absurd hjv (by decide)
        · exact ⟨j, hjl, hjv⟩
    · exact ⟨true, rfl, fun _ => ⟨⟨i, hi⟩, List.mem_cons_self i l, hv⟩, fun _ => rfl⟩

/-- What `enterButtonDown` answers when at most `MAX_PLAYERS` devices are
open. -/
theorem enterButtonDown_eq (s : InputState) (h : s.numJoys ≤ MAX_PLAYERS) :
    ∃ r, enterButtonDown s = some r ∧
      (r = true ↔
        (s.keyDown spaceKey = true ∨ s.keyDown returnKey = true ∨
          ∃ i : Fin MAX_PLAYERS, i.val < s.numJoys ∧ s.joyButtonDown i enterSlot = true)) := by
  have hs : readKey s (SDL_SCANCODE_SPACE : Int) = some (s.keyDown spaceKey) :=
    readKey_natCast s (by decide)
  have hr : readKey s (SDL_SCANCODE_RETURN : Int) = some (s.keyDown returnKey) :=
    readKey_natCast s (by decide)
  unfold enterButtonDown
  rw [hs, hr]
  cases h1 : s.keyDown spaceKey
  · cases h2 : s.keyDown returnKey
    · obtain ⟨r, hr, hiff⟩ := enterJoyScan_eq s (List.range s.numJoys)
        (fun i hi => Nat.lt_of_lt_of_le (List.mem_range.mp hi) h)
      refine ⟨r, hr, hiff.trans ?_⟩
      simp only [List.mem_range]
      constructor
      · intro hx
        exact Or.inr (Or.inr hx)
      · rintro (hx | hx | hx)
        · exact absurd hx (by decide)
        · exact absurd hx (by decide)
        · exact hx
    · exact ⟨true, rfl, fun _ => Or.inr (Or.inl rfl), fun _ => rfl⟩
  · exact ⟨true, rfl, fun _ => Or.inl rfl, fun _ => rfl⟩

/-- The loop of `clearEnterButtons` over devices inside the table clears
their enter buttons and nothing else. -/
theorem clearEnterLoop_eq (l : List Nat) (hl : ∀ i ∈ l, i < MAX_PLAYERS) (s : InputState) :
    ∃ s1, clearEnterLoop s l = some s1 ∧ s1.keyDown = s.keyDown ∧
      s1.numJoys = s.numJoys ∧
      ∀ i c, s1.joyButtonDown i c =
        if i.val ∈ l ∧ c = enterSlot then false else s.joyButtonDown i c := by
  induction l generalizing s with
  | nil => exact ⟨s, rfl, rfl, rfl, by simp⟩
  | cons j l ih =>
    have hj : j < MAX_PLAYERS := hl j (List.mem_cons_self j l)
    have hl1 : ∀ k ∈ l, k < MAX_PLAYERS := fun k hk => hl k (List.mem_cons_of_mem j hk)
    have hwrite : writeJoy s (j : Int) (JOY_ENTER_BUTTON : Int) false =
        some (s.setJoy ⟨j, hj⟩ enterSlot false) := writeJoy_natCast s hj (by decide) false
    rw [clearEnterLoop, hwrite]
    obtain ⟨s1, h1, hk, hn, hjoy⟩ := ih hl1 (s.setJoy ⟨j, hj⟩ enterSlot false)
    refine ⟨s1, h1, hk, hn, ?_⟩
    intro i c
    rw [hjoy i c]
    by_cases hc : c = enterSlot
    · by_cases hil : i.val ∈ l
      · rw [if_pos ⟨hil, hc⟩, if_pos ⟨List.mem_cons_of_mem j hil, hc⟩]
      · rw [if_neg (fun e => hil e.1)]
        by_cases hij : i.val = j
        · have hie : i = ⟨j, hj⟩ := Fin.ext hij
          rw [if_pos ⟨hij ▸ List.mem_cons_self j l, hc⟩]
          show (if i = ⟨j, hj⟩ ∧ c = enterSlot then false else s.joyButtonDown i c) = false
          rw [if_pos ⟨hie, hc⟩]
        · have hie : i ≠ ⟨j, hj⟩ := fun e => hij (by rw [e])
          have hnot : ¬ (i.val ∈ j :: l ∧ c = enterSlot) := by
            rintro ⟨hm, -⟩
            rcases List.mem_cons.mp hm with e | e
            · exact hij e
            · exact hil e
          rw [if_neg hnot]
          show (if i = ⟨j, hj⟩ ∧ c = enterSlot then false else s.joyButtonDown i c) = _
          rw [if_neg (fun e => hie e.1)]
    · rw [if_neg (fun e => hc e.2), if_neg (fun e => hc e.2)]
      show (if i = ⟨j, hj⟩ ∧ c = enterSlot then false else s.joyButtonDown i c) = _
      rw [if_neg (fun e => hc e.2)]

/-- What `clearEnterButtons` leaves when at most `MAX_PLAYERS` devices are
open. -/
theorem clearEnterButtons_eq (s : InputState) (h : s.numJoys ≤ MAX_PLAYERS) :
    ∃ s1, clearEnterButtons s = some s1 ∧ s1.numJoys = s.numJoys ∧
      (∀ k, s1.keyDown k = if k = returnKey ∨ k = spaceKey then false else s.keyDown k) ∧
      (∀ i c, s1.joyButtonDown i c =
        if i.val < s.numJoys ∧ c = enterSlot then false else s.joyButtonDown i c) := by
  have hw1 : writeKey s (SDL_SCANCODE_RETURN : Int) false = some (s.setKey returnKey false) :=
    writeKey_natCast s (by decide) false
  have hw2 : writeKey (s.setKey returnKey false) (SDL_SCANCODE_SPACE : Int) false =
      some ((s.setKey returnKey false).setKey spaceKey false) :=
    writeKey_natCast _ (by decide) false
  unfold clearEnterButtons
  rw [hw1]
  simp only []
  rw [hw2]
  simp only []
  obtain ⟨s1, h1, hk, hn, hjoy⟩ := clearEnterLoop_eq
    (List.range ((s.setKey returnKey false).setKey spaceKey false).numJoys)
    (fun i hi => Nat.lt_of_lt_of_le (List.mem_range.mp hi) h)
    ((s.setKey returnKey false).setKey spaceKey false)
  refine ⟨s1, h1, hn, ?_, ?_⟩
  · intro k
    rw [hk]
    show (if k = spaceKey then false else if k = returnKey then false else s.keyDown k) = _
    by_cases h1 : k = spaceKey
    · rw [if_pos h1, if_pos (Or.inr h1)]
    · rw [if_neg h1]
      by_cases h2 : k = returnKey
      · rw [if_pos h2, if_pos (Or.inl h2)]
      · rw [if_neg h2, if_neg (fun e => e.elim h2 h1)]
  · intro i c
    rw [hjoy i c]
    simp only [List.mem_range]
    rfl

/-! ## Lemmas on the bit fields -/

/-- A mask inside the low byte sees only the low byte. -/
theorem and_mod256 (b m : Nat) (hm : 255 &&& m = m) : b &&& m = (b % 256) &&& m := by
  have h : b % 256 = b &&& 255 := (Nat.and_pow_two_sub_one_eq_mod b 8).symm
  rw [h, Nat.and_assoc, hm]

set_option maxRecDepth 1000000 in
/-- The masks `0xf0`, `0x70`, `0x7f` and `0x80` on every low byte. -/
theorem low_byte_facts : ∀ r < 256,
    (r &&& 0x80 = 0 →
      ((r &&& 0xf0 > 0 ↔ (r &&& 0x70) >>> 4 ≠ 0) ∧ (r &&& 0xf0 = 0 ↔ (r &&& 0x70) >>> 4 = 0))) ∧
    (r &&& 0x80 ≠ 0 → r &&& 0xf0 > 0) ∧
    (r &&& 0x70) >>> 4 ≤ 7 ∧
    (r &&& 0xf0 = 0 → r &&& 0x7f < 16) ∧
    (r &&& 0xf0 > 0 → r &&& 0x80 = 0 → 16 ≤ r &&& 0x7f) := by
  decide

/-- The same facts on every identifier. -/
theorem bit_field_facts (b : Nat) :
    (b &&& 0x80 = 0 →
      ((b &&& 0xf0 > 0 ↔ (b &&& 0x70) >>> 4 ≠ 0) ∧ (b &&& 0xf0 = 0 ↔ (b &&& 0x70) >>> 4 = 0))) ∧
    (b &&& 0x80 ≠ 0 → b &&& 0xf0 > 0) ∧
    (b &&& 0x70) >>> 4 ≤ 7 ∧
    (b &&& 0xf0 = 0 → b &&& 0x7f < 16) ∧
    (b &&& 0xf0 > 0 → b &&& 0x80 = 0 → 16 ≤ b &&& 0x7f) := by
  rw [and_mod256 b 0x80 rfl, and_mod256 b 0xf0 rfl, and_mod256 b 0x70 rfl,
    and_mod256 b 0x7f rfl]
  exact low_byte_facts (b % 256) (Nat.mod_lt b (by decide))

theorem isJoyButton_iff (b : Nat) :
    isJoyButton b = true ↔ (512 ≤ b ∧ b &&& 0xf0 = 0) := by
  unfold isJoyButton
  rw [Bool.and_eq_true, decide_eq_true_iff, decide_eq_true_iff, shiftRight9_pos]

theorem isJoyAxis_iff (b : Nat) :
    isJoyAxis b = true ↔ (512 ≤ b ∧ b &&& 0xf0 > 0) := by
  unfold isJoyAxis
  rw [Bool.and_eq_true, decide_eq_true_iff, decide_eq_true_iff, shiftRight9_pos]

theorem joyButtonNumber_lt (b : Nat) : joyButtonNumber b < (JOY_CODES : Int) := by
  unfold joyButtonNumber
  rw [and_7f_mod]
  have h : b % 128 < 128 := Nat.mod_lt b (by decide)
  show ((b % 128 : Nat) : Int) < ((128 : Nat) : Int)
  exact Int.ofNat_lt.mpr h

/-- On a joystick form `buttonDown` reads the cell that `joyIndex` and
`joyButtonNumber` address. -/
theorem buttonDown_joy (t : InputState) {b : Nat}
    (hj : (isJoyButton b || isJoyAxis b) = true) {i : Fin MAX_PLAYERS} {c : Fin JOY_CODES}
    (hi : joyIndex b = (i.val : Int)) (hc : joyButtonNumber b = (c.val : Int)) :
    buttonDown t b = some (t.joyButtonDown i c) := by
  unfold buttonDown
  rw [hj, hi, hc]
  exact readJoy_natCast t i.isLt c.isLt

/-- On a joystick form `clearButton` clears the cell that `joyIndex` and
`joyButtonNumber` address. -/
theorem clearButton_joy (t : InputState) {b : Nat}
    (hj : (isJoyButton b || isJoyAxis b) = true) {i : Fin MAX_PLAYERS} {c : Fin JOY_CODES}
    (hi : joyIndex b = (i.val : Int)) (hc : joyButtonNumber b = (c.val : Int)) :
    clearButton t b = some (t.setJoy i c false) := by
  unfold clearButton
  rw [hj, hi, hc]
  exact writeJoy_natCast t i.isLt c.isLt false

/-- From row 8 on a joystick form indexes outside `joyButtonDown`. -/
theorem joy_outside (t : InputState) {b : Nat} (h : 4608 ≤ b) :
    buttonDown t b = none ∧ clearButton t b = none := by
  have hj : (isJoyButton b || isJoyAxis b) = true := by
    rw [isJoy_or]
    exact decide_eq_true (by omega)
  have hdiv : 9 ≤ b >>> 9 := by
    rw [Nat.shiftRight_eq_div_pow]
    omega
  have hidx : joyIndex b = ((b >>> 9 - 1 : Nat) : Int) := by
    unfold joyIndex
    rw [if_pos hj]
    omega
  have hnone : index MAX_PLAYERS (joyIndex b) = none := by
    rw [hidx]
    exact index_natCast_none (by show 8 ≤ b >>> 9 - 1; omega)
  constructor
  · unfold buttonDown
    rw [hj]
    simp only [if_true, readJoy, hnone]
  · unfold clearButton
    rw [hj]
    simp only [if_true, writeJoy, hnone]

/-! ## Lemmas on calls in a row -/

theorem joyFlag_injective (c : Nat) :
    ∀ a a1 : Nat, ∀ f ∈ joyFlag c a, f ∈ joyFlag c a1 → a = a1 := by
  intro a a1 f hf hf1
  rw [Option.mem_def] at hf hf1
  unfold joyFlag at hf hf1
  by_cases h : a < MAX_PLAYERS ∧ c < JOY_CODES
  · by_cases h1 : a1 < MAX_PLAYERS ∧ c < JOY_CODES
    · rw [dif_pos h] at hf
      rw [dif_pos h1] at hf1
      have e := hf.trans hf1.symm
      simp only [Option.some.injEq, Flag.joy.injEq, Fin.mk.injEq, and_true] at e
      exact e
    · rw [dif_neg h1] at hf1
      exact absurd hf1 (by simp)
  · rw [dif_neg h] at hf
    exact absurd hf (by simp)

/-- No source of a menu direction is listed twice. -/
theorem menuSources_nodup (ks : keySymbol) (n : Nat) : (menuSources ks n).Nodup := by
  unfold menuSources
  rw [List.nodup_append]
  refine ⟨?_, List.Nodup.filterMap (joyFlag_injective _) (List.nodup_range n), ?_⟩
  · cases ks <;> decide
  · intro f hk hj
    obtain ⟨k, -, hfk⟩ := List.mem_filterMap.mp hk
    obtain ⟨i, -, hfi⟩ := List.mem_filterMap.mp hj
    unfold keyFlag at hfk
    unfold joyFlag at hfi
    by_cases h1 : k < SDL_NUM_SCANCODES
    · by_cases h2 : i < MAX_PLAYERS ∧ dirCode ks <<< 4 < JOY_CODES
      · rw [dif_pos h1] at hfk
        rw [dif_pos h2] at hfi
        have e := hfk.trans hfi.symm
        simp at e
      · rw [dif_neg h2] at hfi
        exact absurd hfi (by simp)
    · rw [dif_neg h1] at hfk
      exact absurd hfk (by simp)

/-- Clearing a held flag of a duplicate-free list leaves one held flag less
in it. -/
theorem countP_clear (s : InputState) (f : Flag) (hv : s.flag f = true) :
    ∀ l : List Flag, l.Nodup → f ∈ l →
      l.countP (s.clear f).flag + 1 = l.countP s.flag := by
  intro l
  induction l with
  | nil =>
    intro _ hmem
    exact absurd hmem (List.not_mem_nil f)
  | cons g l ih =>
    intro hnd hmem
    obtain ⟨hg, hl⟩ := List.nodup_cons.mp hnd
    rw [List.countP_cons, List.countP_cons]
    by_cases hgf : g = f
    · subst hgf
      have hsame : l.countP (s.clear g).flag = l.countP s.flag := by
        apply List.countP_congr
        intro x hx
        have hxg : x ≠ g := fun e => hg (e ▸ hx)
        rw [flag_clear_other s hxg]
      rw [hsame, flag_clear_self, hv]
      simp
    · have hfl : f ∈ l := by
        rcases List.mem_cons.mp hmem with e | e
        · exact absurd e.symm hgf
        · exact e
      rw [flag_clear_other s hgf]
      have := ih hl hfl
      omega

/-- Calls of `menuButtonQuery` in a row, one more than there are held
sources: the answers are true once per held source and then false, and the
sources are left clear, everything else unchanged. -/
theorem queryMany_eq (ks : keySymbol) :
    ∀ (k : Nat) (s : InputState), s.numJoys ≤ MAX_PLAYERS →
      (menuSources ks s.numJoys).countP s.flag = k →
      ∃ s1, queryMany ks (k + 1) s = some (List.replicate k true ++ [false], s1) ∧
        (∀ f ∈ menuSources ks s.numJoys, s1.flag f = false) ∧
        (∀ g, g ∉ menuSources ks s.numJoys → s1.flag g = s.flag g) ∧
        s1.numJoys = s.numJoys := by
  intro k
  induction k with
  | zero =>
    intro s h hk
    have hall : ∀ f ∈ menuSources ks s.numJoys, s.flag f = false := by
      intro f hf
      have := List.countP_eq_zero.mp hk f hf
      simpa using this
    have hnone : firstHeld ks s = none := (firstHeld_none_iff ks s).mpr hall
    have hq : menuButtonQuery ks s = some (false, s) := by
      rw [menuButtonQuery_eq, hnone]
      simp only [if_pos h]
    refine ⟨s, ?_, hall, fun _ _ => rfl, rfl⟩
    simp only [queryMany, hq]
    rfl
  | succ k ih =>
    intro s h hk
    have hpos : 0 < (menuSources ks s.numJoys).countP s.flag := by omega
    obtain ⟨f0, hf0, hv0⟩ := List.countP_pos_iff.mp hpos
    cases hfh : firstHeld ks s with
    | none =>
      have := (firstHeld_none_iff ks s).mp hfh f0 hf0
      rw [hv0] at this
      exact absurd this (by decide)
    | some f =>
      obtain ⟨hf, hv, -⟩ := firstHeld_some hfh
      have hq : menuButtonQuery ks s = some (true, s.clear f) := by
        rw [menuButtonQuery_eq, hfh]
      have hn : (s.clear f).numJoys = s.numJoys := numJoys_clear s f
      have hcount : (menuSources ks (s.clear f).numJoys).countP (s.clear f).flag = k := by
        rw [hn]
        have := countP_clear s f hv _ (menuSources_nodup ks s.numJoys) hf
        omega
      obtain ⟨s1, hrun, hclear, hframe, hnum⟩ := ih (s.clear f) (hn ▸ h) hcount
      rw [hn] at hclear hframe
      refine ⟨s1, ?_, hclear, ?_, hnum.trans hn⟩
      · rw [queryMany, hq]
        simp only [hrun]
        rfl
      · intro g hg
        have hgf : g ≠ f := fun e => hg (e ▸ hf)
        rw [hframe g hg, flag_clear_other s hgf]

/-! ## Lemmas on `buttonName` -/

theorem snprintf_length (size : Nat) (text : String) :
    (snprintf size text).length ≤ size - 1 :=
  List.length_take_le _ _

/-- The label depends on the state only through the test `numJoys > 1`. -/
theorem buttonName_congr {s t : InputState} (h : s.numJoys > 1 ↔ t.numJoys > 1) (b : Nat) :
    buttonName s b = buttonName t b := by
  unfold buttonName
  by_cases hs : s.numJoys > 1
  · rw [if_pos hs, if_pos hs, if_pos (h.mp hs), if_pos (h.mp hs)]
  · rw [if_neg hs, if_neg hs, if_neg (fun e => hs (h.mpr e)), if_neg (fun e => hs (h.mpr e))]

set_option maxRecDepth 1000000 in
/-- The labels of all button encodings, one device open and two devices
open. -/
theorem buttonName_encodeButton_idle : ∀ d < 8, ∀ n < 16,
    buttonName (idle 1) (encodeButton d n) = "joy-" ++ toString (n + 1) ∧
    buttonName (idle 2) (encodeButton d n) =
      "joy-" ++ toString (n + 1) ++ " (" ++ toString (d + 1) ++ ")" := by
  decide

set_option maxRecDepth 1000000 in
/-- The labels of all axis encodings, one device open and two devices open. -/
theorem buttonName_encodeAxis_idle : ∀ d < 8, ∀ a < 5, 1 ≤ a →
    buttonName (idle 1) (encodeAxis d a) = "joy-" ++ dirName a ∧
    buttonName (idle 2) (encodeAxis d a) =
      "joy-" ++ dirName a ++ " (" ++ toString (d + 1) ++ ")" := by
  decide

/-! ## The claims -/

/-- C1: `buttonDown` reads exactly the flag its identifier addresses: a plain
identifier `k < 512` reads `keyDown[k]`, the button encoding of device
`d < 8` and button number `n < 16` reads `joyButtonDown[d][n]`; hence, when
`joyButtonDown[d][n]` is the only flag set, the button encoding of
`(d', n')` reads true iff `d' = d` and `n' = n`. -/
theorem buttonDown_reads_addressed_flag (s : InputState) :
    (∀ k (h : k < SDL_NUM_SCANCODES), buttonDown s k = some (s.keyDown ⟨k, h⟩)) ∧
    (∀ d n (hd : d < MAX_PLAYERS) (hn : n < 16),
      buttonDown s (encodeButton d n) =
        some (s.joyButtonDown ⟨d, hd⟩ ⟨n, Nat.lt_trans hn (by decide)⟩)) ∧
    (∀ d n, d < MAX_PLAYERS → n < 16 →
      (∀ k, s.keyDown k = false) →
      (∀ i c, s.joyButtonDown i c = true ↔ (i.val = d ∧ c.val = n)) →
      ∀ d' n', d' < MAX_PLAYERS → n' < 16 →
        (buttonDown s (encodeButton d' n') = some true ↔ (d' = d ∧ n' = n))) := by
  refine ⟨fun k h => buttonDown_plain s h, fun d n hd hn => buttonDown_encodeButton s hd hn, ?_⟩
  intro d n _ _ _ honly d' n' hd' hn'
  rw [buttonDown_encodeButton s hd' hn']
  simp only [Option.some.injEq]
  exact honly _ _

/-- C1, scenario B of the spec: two devices open, button 3 of device 1 held;
the identifier of device 1 reads true, the one of device 0 does not. -/
theorem buttonDown_reads_addressed_flag_witness :
    buttonDown onlyK SDL_SCANCODE_K = some (onlyK.keyDown ⟨SDL_SCANCODE_K, by decide⟩) ∧
    buttonDown enterOnJoy1 (encodeButton 1 1) =
      some (enterOnJoy1.joyButtonDown ⟨1, by decide⟩ ⟨1, by decide⟩) ∧
    buttonDown ((idle 2).setJoy ⟨1, by decide⟩ ⟨3, by decide⟩ true) (encodeButton 1 3)
      = some true ∧
    ¬ buttonDown ((idle 2).setJoy ⟨1, by decide⟩ ⟨3, by decide⟩ true) (encodeButton 0 3)
      = some true := by
  have honly : ∀ i c,
      ((idle 2).setJoy ⟨1, by decide⟩ ⟨3, by decide⟩ true).joyButtonDown i c = true ↔
        (i.val = 1 ∧ c.val = 3) := by
    intro i c
    simp [InputState.setJoy, idle, Fin.ext_iff]
  have h := (buttonDown_reads_addressed_flag
    ((idle 2).setJoy ⟨1, by decide⟩ ⟨3, by decide⟩ true)).2.2 1 3 (by decide) (by decide)
    (fun _ => rfl) honly
  exact ⟨(buttonDown_reads_addressed_flag onlyK).1 SDL_SCANCODE_K (by decide),
    (buttonDown_reads_addressed_flag enterOnJoy1).2.1 1 1 (by decide) (by decide),
    (h 1 3 (by decide) (by decide)).mpr ⟨rfl, rfl⟩,
    fun h0 => absurd ((h 0 3 (by decide) (by decide)).mp h0).1 (by decide)⟩

/-- C2: every axis encoding (device `d < 8`, direction up, right, down or
left) satisfies `isJoyAxis` and not `isJoyButton`; every button encoding
(device `d < 8`, button number `n < 16`) satisfies `isJoyButton` and not
`isJoyAxis`. -/
theorem encodings_classified :
    (∀ d a, d < MAX_PLAYERS → JOY_DIR_UP ≤ a → a ≤ JOY_DIR_LEFT →
      isJoyAxis (encodeAxis d a) = true ∧ isJoyButton (encodeAxis d a) = false) ∧
    (∀ d n, d < MAX_PLAYERS → n < 16 →
      isJoyButton (encodeButton d n) = true ∧ isJoyAxis (encodeButton d n) = false) := by
  constructor
  · intro d a hd h1 h4
    obtain ⟨ha, hb, -, -⟩ := encodeAxis_facts d hd a (Nat.lt_succ_of_le h4) h1
    exact ⟨ha, hb⟩
  · intro d n hd hn
    obtain ⟨ha, hb, -, -⟩ := encodeButton_facts d hd n hn
    exact ⟨ha, hb⟩

/-- C2 at device 7: the encoding of direction left is an axis form, the
encoding of button 15 is a button form. -/
theorem encodings_classified_witness :
    (isJoyAxis (encodeAxis 7 JOY_DIR_LEFT) = true ∧
      isJoyButton (encodeAxis 7 JOY_DIR_LEFT) = false) ∧
    (isJoyButton (encodeButton 7 15) = true ∧ isJoyAxis (encodeButton 7 15) = false) :=
  ⟨encodings_classified.1 7 JOY_DIR_LEFT (by decide) (by decide) (by decide),
   encodings_classified.2 7 15 (by decide) (by decide)⟩

/-- C3: for every identifier exactly one of the three forms applies: plain
code (neither predicate holds, which is the case iff `b < 512`), joystick
button, joystick axis; the two predicates are never both true. -/
theorem forms_partition (b : button) :
    ((isJoyButton b = false ∧ isJoyAxis b = false) ↔ b < 512) ∧
    ¬ (isJoyButton b = true ∧ isJoyAxis b = true) ∧
    (((isJoyButton b = false ∧ isJoyAxis b = false) ∧
        ¬ isJoyButton b = true ∧ ¬ isJoyAxis b = true) ∨
      (¬ (isJoyButton b = false ∧ isJoyAxis b = false) ∧
        isJoyButton b = true ∧ ¬ isJoyAxis b = true) ∨
      (¬ (isJoyButton b = false ∧ isJoyAxis b = false) ∧
        ¬ isJoyButton b = true ∧ isJoyAxis b = true)) := by
  have hor := isJoy_or b
  have hex := not_button_and_axis b
  refine ⟨?_, hex, ?_⟩
  · by_cases h : 512 ≤ b
    · rw [decide_eq_true h] at hor
      cases hB : isJoyButton b <;> cases hA : isJoyAxis b <;> simp_all
    · rw [decide_eq_false h] at hor
      cases hB : isJoyButton b <;> cases hA : isJoyAxis b <;> simp_all
  · cases hB : isJoyButton b <;> cases hA : isJoyAxis b <;> simp_all

/-- C4: decoding undoes encoding on the button encodings (`d < 8`,
`n < 16`) and on the axis encodings (`d < 8`, direction 1..4); and for
every identifier `joyIndex` is `(b >> 9) - 1` on the joystick forms and
`-1` otherwise, and `joyButtonNumber` is the low 7 bits. -/
theorem decode_encode :
    (∀ d n, d < MAX_PLAYERS → n < 16 →
      joyIndex (encodeButton d n) = (d : Int) ∧
      joyButtonNumber (encodeButton d n) = (n : Int)) ∧
    (∀ d a, d < MAX_PLAYERS → JOY_DIR_UP ≤ a → a ≤ JOY_DIR_LEFT →
      joyIndex (encodeAxis d a) = (d : Int) ∧ joyAxisDir (encodeAxis d a) = a) ∧
    (∀ b : button,
      ((isJoyButton b = true ∨ isJoyAxis b = true) →
        joyIndex b = ((b / 2 ^ 9 : Nat) : Int) - 1) ∧
      (¬ (isJoyButton b = true ∨ isJoyAxis b = true) → joyIndex b = -1) ∧
      joyButtonNumber b = ((b % 2 ^ 7 : Nat) : Int)) := by
  refine ⟨?_, ?_, ?_⟩
  · intro d n hd hn
    obtain ⟨-, -, h3, h4⟩ := encodeButton_facts d hd n hn
    exact ⟨h3, h4⟩
  · intro d a hd h1 h4
    obtain ⟨-, -, h3, h5⟩ := encodeAxis_facts d hd a (Nat.lt_succ_of_le h4) h1
    exact ⟨h3, h5⟩
  · intro b
    refine ⟨?_, ?_, ?_⟩
    · intro h
      have h1 : (isJoyButton b || isJoyAxis b) = true := by
        simpa [Bool.or_eq_true] using h
      unfold joyIndex
      rw [if_pos h1, Nat.shiftRight_eq_div_pow]
    · intro h
      have h1 : ¬ (isJoyButton b || isJoyAxis b) = true := by
        simpa [Bool.or_eq_true] using h
      unfold joyIndex
      rw [if_neg h1]
    · unfold joyButtonNumber
      rw [and_7f_mod]
      rfl

/-- C4 at device 5: button 9 and direction down decode to what was
encoded, and the joystick form 3000 has device index `3000 / 512 - 1 = 4`. -/
theorem decode_encode_witness :
    (joyIndex (encodeButton 5 9) = 5 ∧ joyButtonNumber (encodeButton 5 9) = 9) ∧
    (joyIndex (encodeAxis 5 JOY_DIR_DOWN) = 5 ∧
      joyAxisDir (encodeAxis 5 JOY_DIR_DOWN) = JOY_DIR_DOWN) ∧
    joyIndex 3000 = 4 ∧ joyIndex 300 = -1 :=
  ⟨decode_encode.1 5 9 (by decide) (by decide),
   decode_encode.2.1 5 JOY_DIR_DOWN (by decide) (by decide) (by decide),
   (decode_encode.2.2 3000).1 (by decide),
   (decode_encode.2.2 300).2.1 (by decide)⟩

/-- C5: with at most 8 devices open, `enterButtonDown` returns, and it returns
true iff `keyDown[SPACE]` is set, or `keyDown[RETURN]` is set, or
`joyButtonDown[i][JOY_ENTER_BUTTON]` is set for some open device
`i < numJoys`. -/
theorem enterButtonDown_iff (s : InputState) (h : s.numJoys ≤ MAX_PLAYERS) :
    ∃ r, enterButtonDown s = some r ∧
      (r = true ↔
        (s.keyDown ⟨SDL_SCANCODE_SPACE, by decide⟩ = true ∨
          s.keyDown ⟨SDL_SCANCODE_RETURN, by decide⟩ = true ∨
          ∃ i : Fin MAX_PLAYERS, i.val < s.numJoys ∧
            s.joyButtonDown i ⟨JOY_ENTER_BUTTON, by decide⟩ = true)) :=
  enterButtonDown_eq s h

/-- C5 with two devices open and the enter button of device 1 held. -/
theorem enterButtonDown_iff_witness :
    enterOnJoy1.numJoys ≤ MAX_PLAYERS ∧
    ∃ r, enterButtonDown enterOnJoy1 = some r ∧
      (r = true ↔
        (enterOnJoy1.keyDown ⟨SDL_SCANCODE_SPACE, by decide⟩ = true ∨
          enterOnJoy1.keyDown ⟨SDL_SCANCODE_RETURN, by decide⟩ = true ∨
          ∃ i : Fin MAX_PLAYERS, i.val < enterOnJoy1.numJoys ∧
            enterOnJoy1.joyButtonDown i ⟨JOY_ENTER_BUTTON, by decide⟩ = true)) :=
  ⟨by decide, enterButtonDown_iff enterOnJoy1 (by decide)⟩

/-- C6: with at most 8 devices open, `clearEnterButtons` returns, after it
`enterButtonDown` returns false, and all else is unchanged: every `keyDown`
entry other than RETURN and SPACE, every `joyButtonDown[i][c]` with
`c ≠ JOY_ENTER_BUTTON` or `i ≥ numJoys`, and `numJoys`. -/
theorem clearEnterButtons_frame (s : InputState) (h : s.numJoys ≤ MAX_PLAYERS) :
    ∃ s1, clearEnterButtons s = some s1 ∧ enterButtonDown s1 = some false ∧
      (∀ k : Fin SDL_NUM_SCANCODES, k.val ≠ SDL_SCANCODE_RETURN →
        k.val ≠ SDL_SCANCODE_SPACE → s1.keyDown k = s.keyDown k) ∧
      (∀ (i : Fin MAX_PLAYERS) (c : Fin JOY_CODES),
        (c.val ≠ JOY_ENTER_BUTTON ∨ s.numJoys ≤ i.val) →
          s1.joyButtonDown i c = s.joyButtonDown i c) ∧
      s1.numJoys = s.numJoys := by
  obtain ⟨s1, h1, hn, hk, hjoy⟩ := clearEnterButtons_eq s h
  refine ⟨s1, h1, ?_, ?_, ?_, hn⟩
  · obtain ⟨r, hr, hiff⟩ := enterButtonDown_eq s1 (hn ▸ h)
    have hnot : ¬ r = true := by
      intro hrt
      rcases hiff.mp hrt with hx | hx | ⟨i, hi, hx⟩
      · rw [hk, if_pos (Or.inr rfl)] at hx
        exact absurd hx (by decide)
      · rw [hk, if_pos (Or.inl rfl)] at hx
        exact absurd hx (by decide)
      · rw [hjoy, if_pos ⟨hn ▸ hi, rfl⟩] at hx
        exact absurd hx (by decide)
    rw [hr, Bool.eq_false_iff.mpr hnot]
  · intro k hk1 hk2
    rw [hk, if_neg]
    rintro (e | e)
    · exact hk1 (by rw [e]; rfl)
    · exact hk2 (by rw [e]; rfl)
  · intro i c hic
    rw [hjoy, if_neg]
    rintro ⟨hi, hc⟩
    rcases hic with e | e
    · exact e (by rw [hc]; rfl)
    · exact Nat.not_lt.mpr e hi

/-- C6 with two devices open and the enter button of device 1 held. -/
theorem clearEnterButtons_frame_witness :
    enterOnJoy1.numJoys ≤ MAX_PLAYERS ∧
    ∃ s1, clearEnterButtons enterOnJoy1 = some s1 ∧ enterButtonDown s1 = some false ∧
      (∀ k : Fin SDL_NUM_SCANCODES, k.val ≠ SDL_SCANCODE_RETURN →
        k.val ≠ SDL_SCANCODE_SPACE → s1.keyDown k = enterOnJoy1.keyDown k) ∧
      (∀ (i : Fin MAX_PLAYERS) (c : Fin JOY_CODES),
        (c.val ≠ JOY_ENTER_BUTTON ∨ enterOnJoy1.numJoys ≤ i.val) →
          s1.joyButtonDown i c = enterOnJoy1.joyButtonDown i c) ∧
      s1.numJoys = enterOnJoy1.numJoys :=
  ⟨by decide, clearEnterButtons_frame enterOnJoy1 (by decide)⟩

/-- C7: with at most 8 devices open, `menuButtonQuery` returns for every
direction, and it returns true iff one of the three key aliases of the
direction (its row of `lkeys`) is set in `keyDown` or the axis slot
`joyButtonDown[i][direction << 4]` of some open device `i < numJoys` is set. -/
theorem menuButtonQuery_true_iff (ks : keySymbol) (s : InputState)
    (h : s.numJoys ≤ MAX_PLAYERS) :
    ∃ r s1, menuButtonQuery ks s = some (r, s1) ∧
      (r = true ↔
        ((∃ k : Fin SDL_NUM_SCANCODES, k.val ∈ lkeys ks ∧ s.keyDown k = true) ∨
          (∃ i : Fin MAX_PLAYERS, i.val < s.numJoys ∧
            s.joyButtonDown i ⟨dirCode ks <<< 4, (axisSlot ks).isLt⟩ = true))) := by
  rw [menuButtonQuery_eq]
  cases hfh : firstHeld ks s with
  | none =>
    refine ⟨false, s, by simp only [if_pos h], ?_⟩
    have hnone := (firstHeld_none_iff ks s).mp hfh
    constructor
    · intro hft
      exact absurd hft (by decide)
    · intro hsrc
      obtain ⟨f, hf, hv⟩ := (held_iff ks s s.numJoys).mpr hsrc
      rw [hnone f hf] at hv
      exact absurd hv (by decide)
  | some f =>
    refine ⟨true, s.clear f, rfl, ?_⟩
    obtain ⟨hf, hv, -⟩ := firstHeld_some hfh
    exact ⟨fun _ => (held_iff ks s s.numJoys).mp ⟨f, hf, hv⟩, fun _ => rfl⟩

/-- C7 with two devices open and only the up axis of device 1 held. -/
theorem menuButtonQuery_true_iff_witness :
    ((idle 2).setJoy ⟨1, by decide⟩ (axisSlot .KEY_UP) true).numJoys ≤ MAX_PLAYERS ∧
    ∃ r s1, menuButtonQuery .KEY_UP
        ((idle 2).setJoy ⟨1, by decide⟩ (axisSlot .KEY_UP) true) = some (r, s1) ∧
      (r = true ↔
        ((∃ k : Fin SDL_NUM_SCANCODES, k.val ∈ lkeys .KEY_UP ∧
            ((idle 2).setJoy ⟨1, by decide⟩ (axisSlot .KEY_UP) true).keyDown k = true) ∨
          (∃ i : Fin MAX_PLAYERS,
            i.val < ((idle 2).setJoy ⟨1, by decide⟩ (axisSlot .KEY_UP) true).numJoys ∧
            ((idle 2).setJoy ⟨1, by decide⟩ (axisSlot .KEY_UP) true).joyButtonDown i
              ⟨dirCode .KEY_UP <<< 4, (axisSlot .KEY_UP).isLt⟩ = true))) :=
  ⟨by decide, menuButtonQuery_true_iff .KEY_UP _ (by decide)⟩

/-- C8: `menuButtonQuery` consumes at most one flag per call. When it returns
false the whole state is unchanged. When it returns true exactly one flag
went from set to clear, every other flag and `numJoys` are unchanged, and
the cleared flag is the first held source in the priority order of
`menuSources`: arrow key, first letter alias, second letter alias, then the
axis slot of the direction on device 0, 1, ... With at most 8 devices open
the call does return. -/
theorem menuButtonQuery_consumes_first (ks : keySymbol) (s : InputState) :
    (∀ s1, menuButtonQuery ks s = some (false, s1) → s1 = s) ∧
    (∀ s1, menuButtonQuery ks s = some (true, s1) →
      ∃ f pre post, menuSources ks s.numJoys = pre ++ f :: post ∧
        (∀ g ∈ pre, s.flag g = false) ∧
        s.flag f = true ∧ s1.flag f = false ∧
        (∀ g, g ≠ f → s1.flag g = s.flag g) ∧ s1.numJoys = s.numJoys) ∧
    (s.numJoys ≤ MAX_PLAYERS → ∃ r s1, menuButtonQuery ks s = some (r, s1)) := by
  rw [menuButtonQuery_eq]
  cases hfh : firstHeld ks s with
  | none =>
    refine ⟨?_, ?_, ?_⟩
    · intro s1 h1
      by_cases hn : s.numJoys ≤ MAX_PLAYERS
      · simp only [if_pos hn, Option.some.injEq, Prod.mk.injEq, true_and] at h1
        exact h1.symm
      · simp only [if_neg hn] at h1
        exact absurd h1 (by simp)
    · intro s1 h1
      by_cases hn : s.numJoys ≤ MAX_PLAYERS
      · simp only [if_pos hn, Option.some.injEq, Prod.mk.injEq] at h1
        exact absurd h1.1 (by decide)
      · simp only [if_neg hn] at h1
        exact absurd h1 (by simp)
    · intro hn
      exact ⟨false, s, by simp only [if_pos hn]⟩
  | some f =>
    obtain ⟨-, hv, pre, post, hsplit, hpre⟩ := firstHeld_some hfh
    refine ⟨?_, ?_, ?_⟩
    · intro s1 h1
      simp only [Option.some.injEq, Prod.mk.injEq] at h1
      exact absurd h1.1 (by decide)
    · intro s1 h1
      simp only [Option.some.injEq, Prod.mk.injEq, true_and] at h1
      subst h1
      exact ⟨f, pre, post, hsplit, hpre, hv, flag_clear_self s f,
        fun g hg => flag_clear_other s hg, numJoys_clear s f⟩
    · intro _
      exact ⟨true, s.clear f, rfl⟩

/-- C8 on the held key K: the query for up returns true and leaves the state
with K cleared; on the idle state it returns false and leaves the state. -/
theorem menuButtonQuery_consumes_first_witness :
    (∃ f pre post, menuSources .KEY_UP onlyK.numJoys = pre ++ f :: post ∧
        (∀ g ∈ pre, onlyK.flag g = false) ∧
        onlyK.flag f = true ∧ (onlyK.clear (.key kKey)).flag f = false ∧
        (∀ g, g ≠ f → (onlyK.clear (.key kKey)).flag g = onlyK.flag g) ∧
        (onlyK.clear (.key kKey)).numJoys = onlyK.numJoys) ∧
    idle 3 = idle 3 ∧
    ∃ r s1, menuButtonQuery .KEY_UP onlyK = some (r, s1) :=
  ⟨(menuButtonQuery_consumes_first .KEY_UP onlyK).2.1 (onlyK.clear (.key kKey)) (by rfl),
   (menuButtonQuery_consumes_first .KEY_UP (idle 3)).1 (idle 3) (by rfl),
   (menuButtonQuery_consumes_first .KEY_UP onlyK).2.2 (by decide)⟩

/-- C9, refuted as stated: with the up arrow and the key K both held, a source
of direction up is held, and two calls of `menuButtonQuery(up)` in a row
return true and true, not true and false. -/
theorem queryTwice_counterexample :
    (∃ f, f ∈ menuSources .KEY_UP upAndK.numJoys ∧ upAndK.flag f = true) ∧
    queryTwice .KEY_UP upAndK = some (true, true) ∧
    queryTwice .KEY_UP upAndK ≠ some (true, false) :=
  ⟨⟨.key kKey, by decide, by decide⟩, by decide, by decide⟩

/-- C9, amended: with at most 8 devices open, two calls of `menuButtonQuery`
in a row, with no flag set in between, return true the first time and false
the second time iff exactly one source of the direction is held. -/
theorem queryTwice_true_false_iff (ks : keySymbol) (s : InputState)
    (h : s.numJoys ≤ MAX_PLAYERS) :
    queryTwice ks s = some (true, false) ↔
      ∃ f, f ∈ menuSources ks s.numJoys ∧ s.flag f = true ∧
        ∀ g ∈ menuSources ks s.numJoys, s.flag g = true → g = f := by
  rw [queryTwice_eq ks s h]
  constructor
  · intro hq
    cases hfh : firstHeld ks s with
    | none =>
      rw [hfh] at hq
      simp only [Option.some.injEq, Prod.mk.injEq] at hq
      exact absurd hq.1 (by decide)
    | some f =>
      rw [hfh] at hq
      simp only [Option.some.injEq, Prod.mk.injEq, true_and] at hq
      obtain ⟨hf, hv, -⟩ := firstHeld_some hfh
      have hnone : firstHeld ks (s.clear f) = none := by
        cases hx : firstHeld ks (s.clear f) with
        | none => rfl
        | some g =>
          rw [hx] at hq
          exact absurd hq (by simp)
      have hall := (firstHeld_none_iff ks (s.clear f)).mp hnone
      rw [numJoys_clear] at hall
      refine ⟨f, hf, hv, fun g hg hgv => ?_⟩
      by_contra hne
      have h1 := hall g hg
      rw [flag_clear_other s hne, hgv] at h1
      exact absurd h1 (by decide)
  · rintro ⟨f, hf, hv, honly⟩
    cases hfh : firstHeld ks s with
    | none =>
      have h1 := (firstHeld_none_iff ks s).mp hfh f hf
      rw [hv] at h1
      exact absurd h1 (by decide)
    | some f1 =>
      obtain ⟨hf1, hv1, -⟩ := firstHeld_some hfh
      have he : f1 = f := honly f1 hf1 hv1
      subst he
      have hnone : firstHeld ks (s.clear f1) = none := by
        rw [firstHeld_none_iff, numJoys_clear]
        intro g hg
        by_cases hgf : g = f1
        · rw [hgf]
          exact flag_clear_self s f1
        · rw [flag_clear_other s hgf]
          cases hgv : s.flag g
          · rfl
          · exact absurd (honly g hg hgv) hgf
      simp only [hnone]
      rfl

/-- C9 amended, scenario A of the spec: only the key K held; the query for up
returns true and a second immediate call returns false. -/
theorem queryTwice_true_false_iff_witness :
    onlyK.numJoys ≤ MAX_PLAYERS ∧ queryTwice .KEY_UP onlyK = some (true, false) :=
  ⟨by decide, (queryTwice_true_false_iff .KEY_UP onlyK (by decide)).mpr
    ⟨.key kKey, by decide, by decide, by decide⟩⟩

/-- C10: for every identifier that is a plain code below 512 or a joystick
form with device index in `[0, 8)`, `clearButton` returns, after it
`buttonDown` of the same identifier returns false, and the only flag it
changes is the one `buttonDown` reads (`keyDown[b]` for a plain code,
`joyButtonDown[joyIndex(b)][joyButtonNumber(b)]` for a joystick form): every
other entry of the two tables, and `numJoys`, are unchanged. -/
theorem clearButton_frame (s : InputState) (b : Nat)
    (hb : b < SDL_NUM_SCANCODES ∨
      ((isJoyButton b = true ∨ isJoyAxis b = true) ∧
        0 ≤ joyIndex b ∧ joyIndex b < (MAX_PLAYERS : Int))) :
    ∃ f s1, buttonDown s b = some (s.flag f) ∧
      clearButton s b = some s1 ∧ buttonDown s1 b = some false ∧
      s1.flag f = false ∧ (∀ g, g ≠ f → s1.flag g = s.flag g) ∧
      s1.numJoys = s.numJoys ∧
      (∀ hk : b < SDL_NUM_SCANCODES, f = .key ⟨b, hk⟩) ∧
      ((isJoyButton b = true ∨ isJoyAxis b = true) →
        ∃ i c, f = .joy i c ∧ (i.val : Int) = joyIndex b ∧
          (c.val : Int) = joyButtonNumber b) := by
  rcases hb with hk | ⟨hj, -, h8⟩
  · have hk' : b < 512 := hk
    have hnj : (isJoyButton b || isJoyAxis b) = false := by
      rw [isJoy_or]
      simp only [decide_eq_false_iff_not]
      omega
    have hclear : clearButton s b = some (s.setKey ⟨b, hk⟩ false) := by
      unfold clearButton
      rw [hnj]
      exact writeKey_natCast s hk false
    refine ⟨.key ⟨b, hk⟩, s.clear (.key ⟨b, hk⟩), buttonDown_plain s hk, hclear, ?_,
      flag_clear_self s _, fun g hg => flag_clear_other s hg, rfl, fun _ => rfl, ?_⟩
    · rw [buttonDown_plain _ hk]
      exact congrArg some (flag_clear_self s (.key ⟨b, hk⟩))
    · intro hj
      have hj' : (isJoyButton b || isJoyAxis b) = true := by
        simpa [Bool.or_eq_true] using hj
      rw [hnj] at hj'
      exact absurd hj' (by decide)
  · have hj' : (isJoyButton b || isJoyAxis b) = true := by
      simpa [Bool.or_eq_true] using hj
    obtain ⟨i, c, hi, hc⟩ := joy_cell b hj' h8
    have hread : ∀ t : InputState, buttonDown t b = some (t.joyButtonDown i c) := by
      intro t
      unfold buttonDown
      rw [hj', hi, hc]
      exact readJoy_natCast t i.isLt c.isLt
    have hclear : clearButton s b = some (s.setJoy i c false) := by
      unfold clearButton
      rw [hj', hi, hc]
      exact writeJoy_natCast s i.isLt c.isLt false
    refine ⟨.joy i c, s.clear (.joy i c), hread s, hclear, ?_,
      flag_clear_self s _, fun g hg => flag_clear_other s hg, rfl, ?_,
      fun _ => ⟨i, c, rfl, hi.symm, hc.symm⟩⟩
    · rw [hread]
      exact congrArg some (flag_clear_self s (.joy i c))
    · intro hk
      have hk' : b < 512 := hk
      rw [isJoy_or] at hj'
      have h512 : 512 ≤ b := of_decide_eq_true hj'
      omega

/-- C10 on the enter button of device 1, held, and on the key K, held. -/
theorem clearButton_frame_witness :
    (∃ f s1, buttonDown enterOnJoy1 (encodeButton 1 1) = some (enterOnJoy1.flag f) ∧
      clearButton enterOnJoy1 (encodeButton 1 1) = some s1 ∧
      buttonDown s1 (encodeButton 1 1) = some false ∧
      s1.flag f = false ∧ (∀ g, g ≠ f → s1.flag g = enterOnJoy1.flag g) ∧
      s1.numJoys = enterOnJoy1.numJoys ∧
      (∀ hk : encodeButton 1 1 < SDL_NUM_SCANCODES, f = .key ⟨encodeButton 1 1, hk⟩) ∧
      ((isJoyButton (encodeButton 1 1) = true ∨ isJoyAxis (encodeButton 1 1) = true) →
        ∃ i c, f = .joy i c ∧ (i.val : Int) = joyIndex (encodeButton 1 1) ∧
          (c.val : Int) = joyButtonNumber (encodeButton 1 1))) ∧
    (∃ f s1, buttonDown onlyK SDL_SCANCODE_K = some (onlyK.flag f) ∧
      clearButton onlyK SDL_SCANCODE_K = some s1 ∧
      buttonDown s1 SDL_SCANCODE_K = some false ∧
      s1.flag f = false ∧ (∀ g, g ≠ f → s1.flag g = onlyK.flag g) ∧
      s1.numJoys = onlyK.numJoys ∧
      (∀ hk : SDL_SCANCODE_K < SDL_NUM_SCANCODES, f = .key ⟨SDL_SCANCODE_K, hk⟩) ∧
      ((isJoyButton SDL_SCANCODE_K = true ∨ isJoyAxis SDL_SCANCODE_K = true) →
        ∃ i c, f = .joy i c ∧ (i.val : Int) = joyIndex SDL_SCANCODE_K ∧
          (c.val : Int) = joyButtonNumber SDL_SCANCODE_K)) :=
  ⟨clearButton_frame enterOnJoy1 (encodeButton 1 1) (Or.inr (by decide)),
   clearButton_frame onlyK SDL_SCANCODE_K (Or.inl (by decide))⟩

/-- C11: `buttonName` is total and its label never exceeds the maximum
length: for every identifier and every state (every `numJoys`) it yields a
string of at most `BUTTON_NAME_MAX_LEN - 1 = 19` characters. -/
theorem buttonName_length (s : InputState) (b : button) :
    ∃ label : String, buttonName s b = label ∧ label.length ≤ BUTTON_NAME_MAX_LEN - 1 ∧
      label.length ≤ 19 := by
  have h : (buttonName s b).length ≤ BUTTON_NAME_MAX_LEN - 1 := by
    unfold buttonName
    split_ifs
    · exact snprintf_length _ _
    · exact snprintf_length _ _
    · exact snprintf_length _ _
    · exact snprintf_length _ _
    · exact snprintf_length _ _
    · exact snprintf_length _ _
    · split
      · exact snprintf_length _ _
      · exact Nat.zero_le _
  exact ⟨buttonName s b, rfl, h, h⟩

/-- C12: for every device `d < 8`, the button encoding of button number
`n < 16` is labelled `joy-<n+1>` when `numJoys ≤ 1` and `joy-<n+1> (<d+1>)`
when `numJoys > 1`, and the axis encoding of a direction up, right, down or
left is labelled `joy-<dir>`, respectively `joy-<dir> (<d+1>)`. -/
theorem buttonName_joystick (s : InputState) (d : Nat) (hd : d < MAX_PLAYERS) :
    (∀ n, n < 16 →
      buttonName s (encodeButton d n) =
        if s.numJoys ≤ 1 then "joy-" ++ toString (n + 1)
        else "joy-" ++ toString (n + 1) ++ " (" ++ toString (d + 1) ++ ")") ∧
    (∀ a, JOY_DIR_UP ≤ a → a ≤ JOY_DIR_LEFT →
      buttonName s (encodeAxis d a) =
        if s.numJoys ≤ 1 then "joy-" ++ dirName a
        else "joy-" ++ dirName a ++ " (" ++ toString (d + 1) ++ ")") := by
  by_cases hs : s.numJoys ≤ 1
  · have hc : s.numJoys > 1 ↔ (idle 1).numJoys > 1 := by
      constructor
      · intro h
        exact absurd hs (Nat.not_le.mpr h)
      · intro h
        exact absurd h (by decide)
    constructor
    · intro n hn
      rw [if_pos hs, buttonName_congr hc]
      exact (buttonName_encodeButton_idle d hd n hn).1
    · intro a h1 h4
      rw [if_pos hs, buttonName_congr hc]
      exact (buttonName_encodeAxis_idle d hd a (Nat.lt_succ_of_le h4) h1).1
  · have hc : s.numJoys > 1 ↔ (idle 2).numJoys > 1 :=
      ⟨fun _ => by decide, fun _ => Nat.not_le.mp hs⟩
    constructor
    · intro n hn
      rw [if_neg hs, buttonName_congr hc]
      exact (buttonName_encodeButton_idle d hd n hn).2
    · intro a h1 h4
      rw [if_neg hs, buttonName_congr hc]
      exact (buttonName_encodeAxis_idle d hd a (Nat.lt_succ_of_le h4) h1).2

/-- C12 on device 1: button 3 and direction down, with one and with two
devices open. -/
theorem buttonName_joystick_witness :
    buttonName (idle 1) (encodeButton 1 3) = "joy-4" ∧
    buttonName (idle 2) (encodeButton 1 3) = "joy-4 (2)" ∧
    buttonName (idle 1) (encodeAxis 1 JOY_DIR_DOWN) = "joy-down" ∧
    buttonName (idle 2) (encodeAxis 1 JOY_DIR_DOWN) = "joy-down (2)" :=
  ⟨(buttonName_joystick (idle 1) 1 (by decide)).1 3 (by decide),
   (buttonName_joystick (idle 2) 1 (by decide)).1 3 (by decide),
   (buttonName_joystick (idle 1) 1 (by decide)).2 JOY_DIR_DOWN (by decide) (by decide),
   (buttonName_joystick (idle 2) 1 (by decide)).2 JOY_DIR_DOWN (by decide) (by decide)⟩

/-- C13, what the code does on the alphanumeric keys: a letter key is
labelled with the character whose code is its scancode (a control
character, code 4 for the key A), not with its letter, and a digit key gets
the empty label, since the test `b >= SDL_SCANCODE_0 && b <= SDL_SCANCODE_9`
is `39 <= b && b <= 38`; none of the 36 keys gets its character. -/
theorem buttonName_alphanumeric (s : InputState) :
    buttonName s SDL_SCANCODE_A = String.singleton (Char.ofNat 4) ∧
    keyCharacter SDL_SCANCODE_A = "a" ∧
    buttonName s SDL_SCANCODE_Z = String.singleton (Char.ofNat 29) ∧
    keyCharacter SDL_SCANCODE_Z = "z" ∧
    buttonName s SDL_SCANCODE_1 = "" ∧ keyCharacter SDL_SCANCODE_1 = "1" ∧
    buttonName s SDL_SCANCODE_9 = "" ∧ keyCharacter SDL_SCANCODE_9 = "9" ∧
    buttonName s SDL_SCANCODE_0 = "" ∧ keyCharacter SDL_SCANCODE_0 = "0" ∧
    (List.range' SDL_SCANCODE_A 36).all
      (fun b => decide (buttonName s b ≠ keyCharacter b)) = true :=
  ⟨rfl, rfl, rfl, rfl, rfl, rfl, rfl, rfl, rfl, rfl, rfl⟩

/-- C14, what the code does on the keys of its lookup table: the eleven keys
whose scancode lies in the function key range 58..106 (pause, insert, home,
page up, delete, end, page down and the four arrows) never reach the
`switch` and are labelled `F15` to `F25`; every other case of the table
yields its label. -/
theorem buttonName_table (s : InputState) :
    buttonName s SDL_SCANCODE_PAUSE = "F15" ∧
    buttonName s SDL_SCANCODE_INSERT = "F16" ∧
    buttonName s SDL_SCANCODE_HOME = "F17" ∧
    buttonName s SDL_SCANCODE_PAGEUP = "F18" ∧
    buttonName s SDL_SCANCODE_DELETE = "F19" ∧
    buttonName s SDL_SCANCODE_END = "F20" ∧
    buttonName s SDL_SCANCODE_PAGEDOWN = "F21" ∧
    buttonName s SDL_SCANCODE_RIGHT = "F22" ∧
    buttonName s SDL_SCANCODE_LEFT = "F23" ∧
    buttonName s SDL_SCANCODE_DOWN = "F24" ∧
    buttonName s SDL_SCANCODE_UP = "F25" ∧
    keyNames.all (fun e =>
      decide (SDL_SCANCODE_F1 ≤ e.1 ∧ e.1 ≤ SDL_SCANCODE_F15) ||
        decide (buttonName s e.1 = e.2)) = true :=
  ⟨rfl, rfl, rfl, rfl, rfl, rfl, rfl, rfl, rfl, rfl, rfl, rfl⟩

/-- C15, what the code does on the function keys: F1 to F12 are labelled
`F1` to `F12`, but F13, F14 and F15 (scancodes 104, 105, 106) are labelled
`F47`, `F48` and `F49`, and the keys in between, which are no function keys,
get the labels `F13` to `F46` (print screen, scancode 70, gets `F13`; the up
arrow gets `F25`). -/
theorem buttonName_function_keys (s : InputState) :
    buttonName s SDL_SCANCODE_F1 = "F1" ∧
    buttonName s SDL_SCANCODE_F12 = "F12" ∧
    (List.range 12).all
      (fun n => decide (buttonName s (SDL_SCANCODE_F1 + n) = "F" ++ toString (n + 1))) = true ∧
    buttonName s SDL_SCANCODE_F13 = "F47" ∧
    buttonName s SDL_SCANCODE_F14 = "F48" ∧
    buttonName s SDL_SCANCODE_F15 = "F49" ∧
    buttonName s 70 = "F13" ∧
    buttonName s SDL_SCANCODE_UP = "F25" :=
  ⟨rfl, rfl, rfl, rfl, rfl, rfl, rfl, rfl⟩

/-- C16, refuted as stated: the identifier 640 (device field 1, bit 7 set) is
an axis form although its direction is none, and is no button form although
its direction is none; the identifier 592 is an axis form whose direction
is 5, none of up, right, down, left. -/
theorem axis_direction_counterexample :
    (640 < 2 ^ 32 ∧ 640 >>> 9 ≠ 0) ∧
    ¬ (isJoyAxis 640 = true ↔ joyAxisDir 640 ≠ JOY_DIR_NONE) ∧
    ¬ (isJoyButton 640 = true ↔ joyAxisDir 640 = JOY_DIR_NONE) ∧
    (isJoyAxis 592 = true ∧ ¬ (JOY_DIR_UP ≤ joyAxisDir 592 ∧ joyAxisDir 592 ≤ JOY_DIR_LEFT)) := by
  decide

/-- C16, amended: for every identifier whose device-index field is non-zero
and whose bit 7 is clear, `isJoyAxis` holds iff `joyAxisDir` is not none and
`isJoyButton` holds iff `joyAxisDir` is none; with bit 7 set `isJoyAxis`
holds and `isJoyButton` does not. `joyAxisDir` lies in 0..7, and on the axis
encoding of a direction 1..4 it is that direction. -/
theorem axis_direction_agreement (b : Nat) (hdev : b >>> 9 ≠ 0) :
    (b &&& 0x80 = 0 →
      ((isJoyAxis b = true ↔ joyAxisDir b ≠ JOY_DIR_NONE) ∧
        (isJoyButton b = true ↔ joyAxisDir b = JOY_DIR_NONE))) ∧
    (b &&& 0x80 ≠ 0 → isJoyAxis b = true ∧ isJoyButton b = false) ∧
    joyAxisDir b ≤ 7 ∧
    (∀ d a, d < MAX_PLAYERS → JOY_DIR_UP ≤ a → a ≤ JOY_DIR_LEFT →
      isJoyAxis (encodeAxis d a) = true ∧ joyAxisDir (encodeAxis d a) = a) := by
  have h512 : 512 ≤ b := (shiftRight9_pos b).mp (Nat.pos_of_ne_zero hdev)
  obtain ⟨f1, f2, f3, -, -⟩ := bit_field_facts b
  refine ⟨?_, ?_, f3, ?_⟩
  · intro h7
    obtain ⟨ha, hb⟩ := f1 h7
    constructor
    · rw [isJoyAxis_iff]
      exact ⟨fun h => ha.mp h.2, fun h => ⟨h512, ha.mpr h⟩⟩
    · rw [isJoyButton_iff]
      exact ⟨fun h => hb.mp h.2, fun h => ⟨h512, hb.mpr h⟩⟩
  · intro h7
    have hpos := f2 h7
    constructor
    · exact (isJoyAxis_iff b).mpr ⟨h512, hpos⟩
    · cases hB : isJoyButton b
      · rfl
      · have h0 := ((isJoyButton_iff b).mp hB).2
        rw [h0] at hpos
        exact absurd hpos (Nat.lt_irrefl 0)
  · intro d a hd h1 h4
    obtain ⟨ha, -, -, hdir⟩ := encodeAxis_facts d hd a (Nat.lt_succ_of_le h4) h1
    exact ⟨ha, hdir⟩

/-- C16 amended, on the button encoding of device 0, button 3 (bit 7 clear),
on the identifier 640 (bit 7 set), and on the encoding of direction left of
device 7. -/
theorem axis_direction_agreement_witness :
    ((isJoyAxis (encodeButton 0 3) = true ↔ joyAxisDir (encodeButton 0 3) ≠ JOY_DIR_NONE) ∧
      (isJoyButton (encodeButton 0 3) = true ↔
        joyAxisDir (encodeButton 0 3) = JOY_DIR_NONE)) ∧
    (isJoyAxis 640 = true ∧ isJoyButton 640 = false) ∧
    (isJoyAxis (encodeAxis 7 JOY_DIR_LEFT) = true ∧
      joyAxisDir (encodeAxis 7 JOY_DIR_LEFT) = JOY_DIR_LEFT) :=
  ⟨(axis_direction_agreement (encodeButton 0 3) (by decide)).1 (by decide),
   (axis_direction_agreement 640 (by decide)).2.1 (by decide),
   (axis_direction_agreement 640 (by decide)).2.2.2 7 JOY_DIR_LEFT (by decide) (by decide)
     (by decide)⟩

/-- C17, refuted as stated: 512 is a button form and 640 an axis form of the
same device 0, both address slot 0, and clearing 512 changes what
`buttonDown` reads for 640 from true to false. -/
theorem slots_counterexample :
    isJoyButton 512 = true ∧ isJoyAxis 640 = true ∧
    joyButtonNumber 512 = joyButtonNumber 640 ∧ joyIndex 512 = joyIndex 640 ∧
    buttonDown slot0Held 640 = some true ∧
    (clearButton slot0Held 512).bind (fun s1 => buttonDown s1 640) = some false := by
  decide

/-- C17, amended: for every button form `b1` and every axis form `b2` whose
bit 7 is clear the slot codes differ, button forms addressing slots 0..15
and such axis forms slots 16..127; consequently, when both device indices
are below 8, `clearButton(b1)` leaves `buttonDown(b2)` unchanged and
`clearButton(b2)` leaves `buttonDown(b1)` unchanged. -/
theorem slots_disjoint (b1 b2 : Nat) (h1 : isJoyButton b1 = true)
    (h2 : isJoyAxis b2 = true) (h7 : b2 &&& 0x80 = 0) :
    joyButtonNumber b1 ≠ joyButtonNumber b2 ∧
    (0 ≤ joyButtonNumber b1 ∧ joyButtonNumber b1 < 16) ∧
    (16 ≤ joyButtonNumber b2 ∧ joyButtonNumber b2 < 128) ∧
    (joyIndex b1 < (MAX_PLAYERS : Int) → joyIndex b2 < (MAX_PLAYERS : Int) →
      ∀ s : InputState,
        (∃ s1, clearButton s b1 = some s1 ∧ buttonDown s1 b2 = buttonDown s b2) ∧
        (∃ s2, clearButton s b2 = some s2 ∧ buttonDown s2 b1 = buttonDown s b1)) := by
  have hlo : b1 &&& 0x7f < 16 := (bit_field_facts b1).2.2.2.1 ((isJoyButton_iff b1).mp h1).2
  have hhi : 16 ≤ b2 &&& 0x7f := (bit_field_facts b2).2.2.2.2 ((isJoyAxis_iff b2).mp h2).2 h7
  have hlt2 := joyButtonNumber_lt b2
  have hn1 : joyButtonNumber b1 = ((b1 &&& 0x7f : Nat) : Int) := rfl
  have hn2 : joyButtonNumber b2 = ((b2 &&& 0x7f : Nat) : Int) := rfl
  have hne : joyButtonNumber b1 ≠ joyButtonNumber b2 := by
    rw [hn1, hn2]
    omega
  refine ⟨hne, ⟨by rw [hn1]; omega, by rw [hn1]; omega⟩, ⟨by rw [hn2]; omega, hlt2⟩, ?_⟩
  intro hi1 hi2 s
  have hj1 : (isJoyButton b1 || isJoyAxis b1) = true := by rw [h1]; rfl
  have hj2 : (isJoyButton b2 || isJoyAxis b2) = true := by rw [h2, Bool.or_true]
  obtain ⟨i1, c1, hr1, hc1⟩ := joy_cell b1 hj1 hi1
  obtain ⟨i2, c2, hr2, hc2⟩ := joy_cell b2 hj2 hi2
  have hcne : c1 ≠ c2 := by
    intro e
    apply hne
    rw [hc1, hc2, e]
  constructor
  · refine ⟨s.setJoy i1 c1 false, clearButton_joy s hj1 hr1 hc1, ?_⟩
    rw [buttonDown_joy _ hj2 hr2 hc2, buttonDown_joy _ hj2 hr2 hc2]
    show some (if i2 = i1 ∧ c2 = c1 then false else s.joyButtonDown i2 c2) = _
    rw [if_neg (fun e => hcne e.2.symm)]
  · refine ⟨s.setJoy i2 c2 false, clearButton_joy s hj2 hr2 hc2, ?_⟩
    rw [buttonDown_joy _ hj1 hr1 hc1, buttonDown_joy _ hj1 hr1 hc1]
    show some (if i1 = i2 ∧ c1 = c2 then false else s.joyButtonDown i1 c1) = _
    rw [if_neg (fun e => hcne e.2)]

/-- C17 amended, on button 3 and direction up of device 1, both held. -/
theorem slots_disjoint_witness :
    joyButtonNumber (encodeButton 1 3) ≠ joyButtonNumber (encodeAxis 1 JOY_DIR_UP) ∧
    (0 ≤ joyButtonNumber (encodeButton 1 3) ∧ joyButtonNumber (encodeButton 1 3) < 16) ∧
    (16 ≤ joyButtonNumber (encodeAxis 1 JOY_DIR_UP) ∧
      joyButtonNumber (encodeAxis 1 JOY_DIR_UP) < 128) ∧
    (joyIndex (encodeButton 1 3) < (MAX_PLAYERS : Int) →
      joyIndex (encodeAxis 1 JOY_DIR_UP) < (MAX_PLAYERS : Int) →
      ∀ s : InputState,
        (∃ s1, clearButton s (encodeButton 1 3) = some s1 ∧
          buttonDown s1 (encodeAxis 1 JOY_DIR_UP) = buttonDown s (encodeAxis 1 JOY_DIR_UP)) ∧
        (∃ s2, clearButton s (encodeAxis 1 JOY_DIR_UP) = some s2 ∧
          buttonDown s2 (encodeButton 1 3) = buttonDown s (encodeButton 1 3))) :=
  slots_disjoint (encodeButton 1 3) (encodeAxis 1 JOY_DIR_UP) (by decide) (by decide)
    (by decide)

/-- C19: the table accesses of `buttonDown` and `clearButton` stay in bounds
exactly for the identifiers below 4608: an identifier that is no joystick
form is below 512, the size of `keyDown`; for a joystick form the slot
`joyButtonNumber` is in `[0, 128)` and the row `joyIndex` is in `[0, 8)` iff
the identifier is below `9 * 512 = 4608`. -/
theorem table_accesses_in_bounds (s : InputState) (b : Nat) :
    ((isJoyButton b || isJoyAxis b) = false → b < SDL_NUM_SCANCODES) ∧
    ((isJoyButton b || isJoyAxis b) = true →
      (0 ≤ joyButtonNumber b ∧ joyButtonNumber b < (JOY_CODES : Int)) ∧
      ((0 ≤ joyIndex b ∧ joyIndex b < (MAX_PLAYERS : Int)) ↔ b < 9 * 512)) ∧
    ((buttonDown s b).isSome = true ↔ b < 4608) ∧
    ((clearButton s b).isSome = true ↔ b < 4608) := by
  have hnum : (0 : Int) ≤ joyButtonNumber b := Int.ofNat_nonneg _
  have hrow : (isJoyButton b || isJoyAxis b) = true →
      ((0 ≤ joyIndex b ∧ joyIndex b < (MAX_PLAYERS : Int)) ↔ b < 9 * 512) := by
    intro hj
    have h512 : 512 ≤ b := by
      rw [isJoy_or] at hj
      exact of_decide_eq_true hj
    have hidx : joyIndex b = ((b / 512 : Nat) : Int) - 1 := by
      unfold joyIndex
      rw [if_pos hj, Nat.shiftRight_eq_div_pow]
    rw [hidx]
    show (0 ≤ ((b / 512 : Nat) : Int) - 1 ∧ ((b / 512 : Nat) : Int) - 1 < 8) ↔ b < 9 * 512
    omega
  have hsome : (buttonDown s b).isSome = true ∧ (clearButton s b).isSome = true ↔
      b < 4608 := by
    constructor
    · intro h
      by_contra hge
      have hout := joy_outside s (Nat.le_of_not_lt hge)
      rw [hout.1] at h
      exact absurd h.1 (by decide)
    · intro hlt
      by_cases hk : b < 512
      · have hnj : (isJoyButton b || isJoyAxis b) = false := by
          rw [isJoy_or]
          exact decide_eq_false (by omega)
        constructor
        · rw [buttonDown_plain s hk]
          rfl
        · unfold clearButton
          rw [hnj]
          simp only [Bool.false_eq_true, if_false]
          rw [writeKey_natCast s hk]
          rfl
      · have hj : (isJoyButton b || isJoyAxis b) = true := by
          rw [isJoy_or]
          exact decide_eq_true (by omega)
        have h8 : joyIndex b < (MAX_PLAYERS : Int) := ((hrow hj).mpr (by omega)).2
        obtain ⟨i, c, hi, hc⟩ := joy_cell b hj h8
        constructor
        · rw [buttonDown_joy s hj hi hc]
          rfl
        · rw [clearButton_joy s hj hi hc]
          rfl
  refine ⟨?_, fun hj => ⟨⟨hnum, joyButtonNumber_lt b⟩, hrow hj⟩, ?_, ?_⟩
  · intro hnj
    rw [isJoy_or] at hnj
    have h := of_decide_eq_false hnj
    show b < 512
    omega
  · constructor
    · intro h
      by_contra hge
      rw [(joy_outside s (Nat.le_of_not_lt hge)).1] at h
      exact absurd h (by decide)
    · intro hlt
      exact (hsome.mpr hlt).1
  · constructor
    · intro h
      by_contra hge
      rw [(joy_outside s (Nat.le_of_not_lt hge)).2] at h
      exact absurd h (by decide)
    · intro hlt
      exact (hsome.mpr hlt).2

/-- C19 at the last identifier in bounds, 4607, at the first one out of
bounds, 4608, and at the plain code 300. -/
theorem table_accesses_in_bounds_witness :
    300 < SDL_NUM_SCANCODES ∧
    ((0 ≤ joyButtonNumber 4607 ∧ joyButtonNumber 4607 < (JOY_CODES : Int)) ∧
      ((0 ≤ joyIndex 4607 ∧ joyIndex 4607 < (MAX_PLAYERS : Int)) ↔ 4607 < 9 * 512)) ∧
    (buttonDown (idle 2) 4607).isSome = true ∧
    ¬ (clearButton (idle 2) 4608).isSome = true :=
  ⟨(table_accesses_in_bounds (idle 2) 300).1 (by decide),
   (table_accesses_in_bounds (idle 2) 4607).2.1 (by decide),
   (table_accesses_in_bounds (idle 2) 4607).2.2.1.mpr (by decide),
   fun h => absurd ((table_accesses_in_bounds (idle 2) 4608).2.2.2.mp h) (by decide)⟩

/-- C18: with at most 8 devices open, if `k` flags are set among the sources
of a direction (its three key aliases and its axis slot on the devices below
`numJoys`, no source counted twice), then `k + 1` calls of
`menuButtonQuery` in a row return true exactly `k` times and then false, and
afterwards all of those source flags are clear; no other flag and not
`numJoys` has changed. -/
theorem queryMany_fires_once_per_source (ks : keySymbol) (s : InputState)
    (h : s.numJoys ≤ MAX_PLAYERS) :
    (menuSources ks s.numJoys).Nodup ∧
    ∃ s1, queryMany ks ((menuSources ks s.numJoys).countP s.flag + 1) s =
        some (List.replicate ((menuSources ks s.numJoys).countP s.flag) true ++ [false], s1) ∧
      (∀ f ∈ menuSources ks s.numJoys, s1.flag f = false) ∧
      (∀ g, g ∉ menuSources ks s.numJoys → s1.flag g = s.flag g) ∧
      s1.numJoys = s.numJoys :=
  ⟨menuSources_nodup ks s.numJoys, queryMany_eq ks _ s h rfl⟩

/-- C18 with the up arrow and the key K held: two sources of direction up are
held, and three calls in a row return true, true, false. -/
theorem queryMany_fires_once_per_source_witness :
    upAndK.numJoys ≤ MAX_PLAYERS ∧
    (menuSources .KEY_UP upAndK.numJoys).countP upAndK.flag = 2 ∧
    (queryMany .KEY_UP 3 upAndK).map Prod.fst = some [true, true, false] ∧
    ∃ s1, queryMany .KEY_UP ((menuSources .KEY_UP upAndK.numJoys).countP upAndK.flag + 1)
        upAndK =
        some (List.replicate ((menuSources .KEY_UP upAndK.numJoys).countP upAndK.flag) true ++
          [false], s1) ∧
      (∀ f ∈ menuSources .KEY_UP upAndK.numJoys, s1.flag f = false) ∧
      (∀ g, g ∉ menuSources .KEY_UP upAndK.numJoys → s1.flag g = upAndK.flag g) ∧
      s1.numJoys = upAndK.numJoys :=
  ⟨by decide, by decide, by decide,
    (queryMany_fires_once_per_source .KEY_UP upAndK (by decide)).2⟩

/-- C20, what the code does when the platform reports nine joysticks:
`numJoys` becomes 9, above `MAX_PLAYERS`; the store `joys[8]` of
`openJoysticks` is outside the array, and with `numJoys = 9` and nothing held
`enterButtonDown`, `clearEnterButtons` and `menuButtonQuery` index row 8 of
`joyButtonDown`. For every report from 0 to 8 `openJoysticks` returns with
`numJoys` equal to the report. -/
theorem openJoysticks_unclamped :
    toUInt 9 = 9 ∧ ¬ toUInt 9 ≤ MAX_PLAYERS ∧
    openJoysticks 9 (idle 0) = none ∧
    enterButtonDown (idle (toUInt 9)) = none ∧
    clearEnterButtons (idle (toUInt 9)) = none ∧
    menuButtonQuery .KEY_UP (idle (toUInt 9)) = none ∧
    (List.range 9).all (fun n =>
      decide ((openJoysticks (n : Int) (idle 0)).map (fun s => s.numJoys) = some n)) = true :=
  ⟨by decide, by decide, rfl, by decide, rfl, rfl, by decide⟩

end Zatackax
